import Mathlib

/-!
Shallow embedding of the ipstack TCP flow engine (src/lib.rs and
src/stream/tcp.rs) together with the parts of the per-flow TCB that the
source references but whose module is not part of the provided sources;
those parts are modelled from the specification and are marked as such.
All machine integers are represented as `Nat` with explicit reduction
modulo 2^32 (sequence numbers) or 2^16 (window sizes) where the source
relies on wrapping.
-/

namespace IpStack

/-- Reduction of a value to the 32-bit sequence-number space. -/
def wrap32 (n : Nat) : Nat := n % 4294967296

/-- Modelled from the spec: SeqNum comparison (seqnum.rs is not in src/).
`a < b` iff the 32-bit difference `a - b`, read as a signed i32, is
negative; both arguments are assumed already reduced mod 2^32. -/
def seqLt (a b : Nat) : Bool := decide (2147483648 ≤ (a + 4294967296 - b) % 4294967296)

/-- Modelled from the spec: non-strict SeqNum comparison. -/
def seqLe (a b : Nat) : Bool := a == b || seqLt a b

/-- Modelled from the spec: wrapping addition of a delta to a SeqNum. -/
def seqAdd (a d : Nat) : Nat := (a + d) % 4294967296

/-- Modelled from the spec: wrapping subtraction of a delta from a SeqNum. -/
def seqSub (a d : Nat) : Nat := (a % 4294967296 + 4294967296 - d % 4294967296) % 4294967296

/-- TCP flag bit for FIN, as in the tcp_flags module of the packet codec. -/
def FIN : Nat := 1
/-- TCP flag bit for SYN. -/
def SYN : Nat := 2
/-- TCP flag bit for RST. -/
def RST : Nat := 4
/-- TCP flag bit for PSH. -/
def PSH : Nat := 8
/-- TCP flag bit for ACK. -/
def ACK : Nat := 16

/-- Host-dependent TTL constant from lib.rs: 64 on Unix, 128 on Windows. -/
def hostTTL (unix : Bool) : Nat := if unix then 64 else 128

/-- TTL value used as the teardown sentinel in lib.rs. -/
def DROP_TTL : Nat := 0

/-- TCP connection state, as in stream/tcb.rs (modelled from the spec §3). -/
inductive TcpState where
  | Listen
  | SynReceived
  | Established
  | FinWait1 (peerFinObserved : Bool)
  | FinWait2 (awaitingFinalAck : Bool)
  | Closed
deriving DecidableEq, Repr

/-- Classification of an incoming segment (modelled from the spec §4.2). -/
inductive PacketStatus where
  | Invalid
  | KeepAlive
  | WindowUpdate
  | RetransmissionRequest
  | NewPacket
  | Ack
deriving DecidableEq, Repr

/-- IP address of either family; v6 addresses carry their sixteen octets. -/
inductive IpAddr where
  | v4 (o0 o1 o2 o3 : Nat)
  | v6 (octets : List Nat)
deriving DecidableEq, Repr

/-- Socket address: IP address plus port. -/
structure SockAddr where
  ip : IpAddr
  port : Nat
deriving DecidableEq, Repr

/-- Whether the address is IPv4. -/
def IpAddr.isV4 : IpAddr → Bool
  | .v4 _ _ _ _ => true
  | .v6 _ => false

/-- Both socket addresses belong to the same IP family. -/
def sameFamily (a b : SockAddr) : Bool :=
  match a.ip, b.ip with
  | .v4 _ _ _ _, .v4 _ _ _ _ => true
  | .v6 _, .v6 _ => true
  | _, _ => false

/-- Incoming TCP header fields, as read by the flow task from an inbound
segment produced by the packet codec. -/
structure TcpHeaderIn where
  sequence_number : Nat
  acknowledgment_number : Nat
  window_size : Nat
  syn : Bool
  ack : Bool
  rst : Bool
  fin : Bool
  psh : Bool
deriving DecidableEq, Repr

/-- Flag byte of an incoming header, as produced by TcpHeaderWrapper. -/
def TcpHeaderIn.flags (h : TcpHeaderIn) : Nat :=
  (if h.fin then FIN else 0) + (if h.syn then SYN else 0) +
  (if h.rst then RST else 0) + (if h.psh then PSH else 0) +
  (if h.ack then ACK else 0)

/-- One sent-but-unacknowledged segment retained for resend. -/
structure InflightPacket where
  seq : Nat
  payload : List Nat
deriving DecidableEq, Repr

/-- Modelled from the spec: send-buffer cap of 64 KiB (§3, tcb.rs is not in
src/); writes park when the inflight byte-sum exceeds it. -/
def SEND_BUFFER_CAP : Nat := 65536

/-- Modelled from the spec: capacity of the reordering buffer from which the
advertised receive window is derived (§3; tcb.rs is not in src/). -/
def RECV_BUFFER_SIZE : Nat := 65535

/-- Per-flow Transmission Control Block (modelled from the spec §3; the
tcb.rs module is not part of the provided sources). All sequence-space
fields are kept reduced mod 2^32, window fields mod 2^16. -/
structure Tcb where
  seq : Nat
  last_ack : Nat
  ack : Nat
  recv_window : Nat
  send_window : Nat
  avg_send_window : Nat
  inflight_packets : List InflightPacket
  unordered_packets : List (Nat × List Nat)
  retransmission : Option Nat
  state : TcpState
deriving DecidableEq, Repr

/-- Modelled from the spec: TCB construction (§4.3): state Listen, our seq
starts at 0, `ack` is supplied by the caller (first_seq + 1). Window fields
start at their buffer-derived defaults. -/
def Tcb.new (ack : Nat) : Tcb :=
  { seq := 0
    last_ack := 0
    ack := ack
    recv_window := RECV_BUFFER_SIZE
    send_window := 65535
    avg_send_window := 65535
    inflight_packets := []
    unordered_packets := []
    retransmission := none
    state := .Listen }

/-- Bytes currently held in the reordering buffer. -/
def Tcb.unorderedBytes (t : Tcb) : Nat :=
  (t.unordered_packets.map (fun p => p.2.length)).sum

/-- Modelled from the spec: free space in the reordering buffer (§3: the
advertised recv_window equals currently free reorder-buffer space). -/
def Tcb.get_available_read_buffer_size (t : Tcb) : Nat :=
  RECV_BUFFER_SIZE - t.unorderedBytes

/-- Sets the advertised receive window (the caller casts to u16). -/
def Tcb.change_recv_window (t : Tcb) (w : Nat) : Tcb :=
  { t with recv_window := w % 65536 }

/-- Advances `ack` (next expected peer sequence number) by a delta. -/
def Tcb.add_ack (t : Tcb) (n : Nat) : Tcb :=
  { t with ack := seqAdd t.ack n }

/-- Advances our send sequence number by one (used for SYN and FIN). -/
def Tcb.add_seq_one (t : Tcb) : Tcb :=
  { t with seq := seqAdd t.seq 1 }

/-- Replaces the connection state. -/
def Tcb.change_state (t : Tcb) (s : TcpState) : Tcb :=
  { t with state := s }

/-- Modelled from the spec: adopt a newly advertised peer window and fold it
into the exponential moving average `avg := (7*avg + new)/8` (§4.2). -/
def Tcb.change_send_window (t : Tcb) (w : Nat) : Tcb :=
  { t with send_window := w % 65536
           avg_send_window := (7 * t.avg_send_window + w % 65536) / 8 }

/-- Modelled from the spec: on an ACK that advances `last_ack`, adopt it and
drop every inflight entry fully covered, i.e. with seq + len ≤ last_ack
(§3, §4.2); older ACKs leave the block unchanged. -/
def Tcb.change_last_ack (t : Tcb) (a : Nat) : Tcb :=
  if seqLt t.last_ack a then
    { t with last_ack := a
             inflight_packets :=
               t.inflight_packets.filter
                 (fun p => !(seqLe (seqAdd p.seq p.payload.length) a)) }
  else t

/-- Byte-sum of the inflight buffer. -/
def Tcb.inflightBytes (t : Tcb) : Nat :=
  (t.inflight_packets.map (fun p => p.payload.length)).sum

/-- Modelled from the spec: the send buffer is full when the inflight
byte-sum exceeds the cap (§4.2). -/
def Tcb.is_send_buffer_full (t : Tcb) : Bool :=
  decide (SEND_BUFFER_CAP < t.inflightBytes)

/-- Modelled from the spec: record a sent segment in the inflight buffer
(§4.2 appends); the send sequence number advances by the payload length so
that every inflight entry satisfies `p.seq < seq` as §8 requires. -/
def Tcb.add_inflight_packet (t : Tcb) (s : Nat) (p : List Nat) : Tcb :=
  { t with inflight_packets := t.inflight_packets ++ [⟨s, p⟩]
           seq := seqAdd t.seq p.length }

/-- Insert-or-replace in the seq-keyed reordering buffer. -/
def upsertAssoc (m : List (Nat × List Nat)) (k : Nat) (v : List Nat) :
    List (Nat × List Nat) :=
  if m.any (fun p => p.1 == k) then
    m.map (fun p => if p.1 == k then (k, v) else p)
  else m ++ [(k, v)]

/-- Modelled from the spec: store an out-of-order segment by its sequence
number (§4.2). -/
def Tcb.add_unordered_packet (t : Tcb) (s : Nat) (p : List Nat) : Tcb :=
  { t with unordered_packets := upsertAssoc t.unordered_packets s p }

/-- Lookup in the reordering buffer. -/
def lookupAssoc (m : List (Nat × List Nat)) (k : Nat) : Option (List Nat) :=
  (m.find? (fun p => p.1 == k)).map (fun p => p.2)

/-- Removal from the reordering buffer. -/
def removeAssoc (m : List (Nat × List Nat)) (k : Nat) : List (Nat × List Nat) :=
  m.filter (fun p => p.1 != k)

/-- Collects the longest contiguous run starting at a given sequence number,
removing the collected entries; fuelled by the buffer size. -/
def drainLoop : Nat → Nat → List (Nat × List Nat) → List Nat × List (Nat × List Nat)
  | 0, _, m => ([], m)
  | fuel + 1, a, m =>
    match lookupAssoc m a with
    | none => ([], m)
    | some p =>
      let r := drainLoop fuel (seqAdd a p.length) (removeAssoc m a)
      (p ++ r.1, r.2)

/-- Modelled from the spec: the read-side drain returns the longest
contiguous prefix of the reordering buffer starting at the next expected
sequence number and removes the delivered entries (§4.2); the caller
advances `ack` by the returned length. -/
def Tcb.get_unordered_packets (t : Tcb) : Option (List Nat × List (Nat × List Nat)) :=
  let r := drainLoop t.unordered_packets.length t.ack t.unordered_packets
  if r.1.isEmpty then none else some r

/-- Modelled from the spec: the §4.2 classification table for an incoming
segment, ordered so that every row is reachable: a keep-alive (seq one
before the expected ack, empty payload) precedes the validity test, which
requires the incoming ack to lie in `(last_ack - window, seq]` and the
incoming seq to lie inside the receive window. -/
def Tcb.check_pkt_type (t : Tcb) (h : TcpHeaderIn) (payload : List Nat) : PacketStatus :=
  let iack := wrap32 h.acknowledgment_number
  let iseq := wrap32 h.sequence_number
  if iseq == seqSub t.ack 1 && payload.isEmpty then .KeepAlive
  else if !(seqLt (seqSub t.last_ack t.send_window) iack && seqLe iack t.seq)
          || !(seqLe t.ack iseq && seqLe iseq (seqAdd t.ack t.recv_window)) then .Invalid
  else if iack == t.last_ack && payload.isEmpty && iack == t.seq then .WindowUpdate
  else if iack == t.last_ack && payload.isEmpty then .RetransmissionRequest
  else if !payload.isEmpty && seqLe t.ack iseq then .NewPacket
  else if payload.isEmpty && seqLt t.last_ack iack then .Ack
  else .Invalid

/-- Outgoing TCP header built by create_rev_packet. -/
structure TcpHeaderOut where
  source_port : Nat
  destination_port : Nat
  sequence_number : Nat
  acknowledgment_number : Nat
  window_size : Nat
  syn : Bool
  ack : Bool
  rst : Bool
  fin : Bool
  psh : Bool
  checksum : Nat
deriving DecidableEq, Repr

/-- Outgoing IPv4 header: TTL, source and destination octets, payload
length, and the don't-fragment flag set by create_rev_packet. -/
structure Ipv4HeaderOut where
  ttl : Nat
  source : List Nat
  destination : List Nat
  payload_len : Nat
  dont_fragment : Bool
deriving DecidableEq, Repr

/-- Outgoing IPv6 header: hop limit, addresses, payload length. -/
structure Ipv6HeaderOut where
  hop_limit : Nat
  source : List Nat
  destination : List Nat
  payload_length : Nat
deriving DecidableEq, Repr

/-- Outgoing IP header of either family. -/
inductive IpHeaderOut where
  | ipv4 (h : Ipv4HeaderOut)
  | ipv6 (h : Ipv6HeaderOut)
deriving DecidableEq, Repr

/-- Transport header of a NetworkPacket: TCP with its header, or UDP with
its ports. -/
inductive TransportOut where
  | tcp (h : TcpHeaderOut)
  | udp (srcPort dstPort : Nat)
deriving DecidableEq, Repr

/-- A packet travelling on the shared outbox toward the device. -/
structure NetworkPacketM where
  ip : IpHeaderOut
  transport : TransportOut
  payload : List Nat
deriving DecidableEq, Repr

/-- IP TTL (hop limit for v6) of an outbox packet. -/
def NetworkPacketM.ttl (p : NetworkPacketM) : Nat :=
  match p.ip with
  | .ipv4 h => h.ttl
  | .ipv6 h => h.hop_limit

/-- Whether the packet's source address is IPv4. -/
def NetworkPacketM.isV4 (p : NetworkPacketM) : Bool :=
  match p.ip with
  | .ipv4 _ => true
  | .ipv6 _ => false

/-- Sequence number of the packet's TCP header (0 for UDP). -/
def NetworkPacketM.tcpSeq (p : NetworkPacketM) : Nat :=
  match p.transport with
  | .tcp h => h.sequence_number
  | .udp _ _ => 0

/-- Acknowledgment number of the packet's TCP header (0 for UDP). -/
def NetworkPacketM.tcpAck (p : NetworkPacketM) : Nat :=
  match p.transport with
  | .tcp h => h.acknowledgment_number
  | .udp _ _ => 0

/-- Flag byte of the packet's TCP header (0 for UDP). -/
def NetworkPacketM.tcpFlags (p : NetworkPacketM) : Nat :=
  match p.transport with
  | .tcp h =>
    (if h.fin then FIN else 0) + (if h.syn then SYN else 0) +
    (if h.rst then RST else 0) + (if h.psh then PSH else 0) +
    (if h.ack then ACK else 0)
  | .udp _ _ => 0

/-- One fold step of the ones-complement 16-bit accumulation, fuelled; the
fuel equals the starting value, a safe bound since every step strictly
decreases values of at least 2^16. -/
def onesFoldAux : Nat → Nat → Nat
  | 0, n => n
  | f + 1, n => if n < 65536 then n else onesFoldAux f (n % 65536 + n / 65536)

/-- Folds a sum into sixteen bits with end-around carry. -/
def onesFold (n : Nat) : Nat := onesFoldAux n n

/-- Modelled from the spec: the standard internet checksum over a list of
16-bit words (§4.3 specifies the TCP checksum is computed over the
pseudo-header per standard rules; the arithmetic lives in the external
packet library). -/
def checksum16 (ws : List Nat) : Nat := 65535 - onesFold (ws.foldl (· + ·) 0)

/-- Pairs bytes into 16-bit words, padding a trailing odd byte with zero. -/
def bytesToWords : List Nat → List Nat
  | [] => []
  | [a] => [a * 256]
  | a :: b :: rest => (a * 256 + b) :: bytesToWords rest

/-- Serialization of the outgoing TCP header, with checksum field zero, as
16-bit words for checksum purposes: ports, sequence and acknowledgment
numbers, data offset 5 with the flag byte, window, zero checksum, zero
urgent pointer. -/
def tcpHeaderWords (h : TcpHeaderOut) : List Nat :=
  [h.source_port, h.destination_port,
   h.sequence_number / 65536, h.sequence_number % 65536,
   h.acknowledgment_number / 65536, h.acknowledgment_number % 65536,
   80 * 256 + ((if h.fin then FIN else 0) + (if h.syn then SYN else 0) +
     (if h.rst then RST else 0) + (if h.psh then PSH else 0) +
     (if h.ack then ACK else 0)),
   h.window_size, 0, 0]

/-- IPv4 pseudo-header words: source, destination, protocol 6, TCP length. -/
def pseudoHeaderV4 (src dst : List Nat) (tcpLen : Nat) : List Nat :=
  bytesToWords src ++ bytesToWords dst ++ [6, tcpLen]

/-- IPv6 pseudo-header words: source, destination, TCP length, next header 6. -/
def pseudoHeaderV6 (src dst : List Nat) (tcpLen : Nat) : List Nat :=
  bytesToWords src ++ bytesToWords dst ++ [tcpLen / 65536, tcpLen % 65536, 0, 6]

/-- TCP checksum over the IPv4 pseudo-header, the TCP header and payload. -/
def tcpChecksumV4 (src dst : List Nat) (h : TcpHeaderOut) (payload : List Nat) : Nat :=
  checksum16 (pseudoHeaderV4 src dst (20 + payload.length) ++
    tcpHeaderWords h ++ bytesToWords payload)

/-- TCP checksum over the IPv6 pseudo-header, the TCP header and payload. -/
def tcpChecksumV6 (src dst : List Nat) (h : TcpHeaderOut) (payload : List Nat) : Nat :=
  checksum16 (pseudoHeaderV6 src dst (20 + payload.length) ++
    tcpHeaderWords h ++ bytesToWords payload)

/-- Result of create_rev_packet: a packet, a propagated construction error
from the header library, or the unreachable (panicking) arm taken on
mixed-family addresses. -/
inductive RevPacketResult where
  | ok (p : NetworkPacketM)
  | err
  | unreachableBranch
deriving DecidableEq, Repr

/-- Maximum payload of an outgoing segment: the lesser of the peer's send
window and what fits in the MTU after the IP and TCP headers
(tcp.rs calculate_payload_max_len; the MTU subtraction saturates). -/
def calculate_payload_max_len (send_window mtu ip_header_size tcp_header_size : Nat) : Nat :=
  min send_window (mtu - (ip_header_size + tcp_header_size))

/-- Octets of an IPv4 address. -/
def v4Octets (o0 o1 o2 o3 : Nat) : List Nat := [o0, o1, o2, o3]

/-- Builds the reverse-direction packet (tcp.rs create_rev_packet): a TCP
header from our TCB (seq override optional), then an IP header matched on
the address family pair — IPv4 truncates the payload to the computed
maximum and sets don't-fragment, IPv6 likewise; a mixed pair takes the
unreachable arm. Finally the checksum is computed over the matching
pseudo-header. -/
def create_rev_packet (src_addr dst_addr : SockAddr) (mtu : Nat) (tcb : Tcb)
    (flags : Nat) (ttl : Nat) (seqArg : Option Nat) (payload : List Nat) :
    RevPacketResult :=
  let hdr0 : TcpHeaderOut :=
    { source_port := dst_addr.port
      destination_port := src_addr.port
      sequence_number := seqArg.getD tcb.seq
      acknowledgment_number := tcb.ack
      window_size := tcb.recv_window
      syn := flags &&& SYN != 0
      ack := flags &&& ACK != 0
      rst := flags &&& RST != 0
      fin := flags &&& FIN != 0
      psh := flags &&& PSH != 0
      checksum := 0 }
  match dst_addr.ip, src_addr.ip with
  | .v4 d0 d1 d2 d3, .v4 s0 s1 s2 s3 =>
    let plen := calculate_payload_max_len tcb.send_window mtu 20 20
    let pl := payload.take plen
    if 65515 < pl.length + 20 then .err
    else
      let iph : Ipv4HeaderOut :=
        { ttl := ttl
          source := v4Octets d0 d1 d2 d3
          destination := v4Octets s0 s1 s2 s3
          payload_len := pl.length + 20
          dont_fragment := true }
      let cks := tcpChecksumV4 iph.source iph.destination hdr0 pl
      .ok { ip := .ipv4 iph
            transport := .tcp { hdr0 with checksum := cks }
            payload := pl }
  | .v6 d, .v6 s =>
    let plen := calculate_payload_max_len tcb.send_window mtu 40 20
    let pl := payload.take plen
    if 65535 < pl.length + 20 then .err
    else
      let iph : Ipv6HeaderOut :=
        { hop_limit := ttl
          source := d
          destination := s
          payload_length := pl.length + 20 }
      let cks := tcpChecksumV6 iph.source iph.destination hdr0 pl
      .ok { ip := .ipv6 iph
            transport := .tcp { hdr0 with checksum := cks }
            payload := pl }
  | _, _ => .unreachableBranch

/-- Shutdown progress of the consumer-facing stream (tcp.rs `Shutdown`);
the waker carried by the pending state is not modelled. -/
inductive ShutdownS where
  | None
  | Pending
  | Ready
deriving DecidableEq, Repr

/-- Numeric rank of the shutdown progression None, Pending, Ready. -/
def shutdownRank : ShutdownS → Nat
  | .None => 0
  | .Pending => 1
  | .Ready => 2

/-- Full state of one TCP flow task: addresses and MTU, the TCB, a prepared
outbound segment, shutdown progress, the registered write waker (as a
flag), and the inbound segment queue of the flow's inbox. -/
structure StreamState where
  src_addr : SockAddr
  dst_addr : SockAddr
  mtu : Nat
  tcb : Tcb
  packet_to_send : Option NetworkPacketM
  shutdown : ShutdownS
  write_notify : Bool
  inbox : List (TcpHeaderIn × List Nat)
deriving DecidableEq, Repr

/-- Marks shutdown ready, waking a pending waiter (tcp.rs Shutdown::ready). -/
def shutdownReady (s : StreamState) : StreamState :=
  { s with shutdown := .Ready }

/-- Result of IpStackTcpStream::new: a constructed stream, a
connection-refused failure carrying the packets emitted on the way out, a
propagated I/O error from packet construction, or a panic. -/
inductive NewResult where
  | ok (s : StreamState)
  | connectionRefused (sent : List NetworkPacketM)
  | ioErr
  | panicked
deriving Repr

/-- Packets emitted by a construction attempt. -/
def NewResult.sentPackets : NewResult → List NetworkPacketM
  | .connectionRefused sent => sent
  | _ => []

/-- Embeds IpStackTcpStream::new: builds the TCB with ack one past the
first segment's sequence number; a SYN first segment yields the stream in
Listen; otherwise a non-RST first segment provokes an outgoing RST+ACK
(seq argument None, so the TCB's own seq is used) before the
connection-refused failure, while a pure RST fails silently. -/
def tcpStreamNew (unix : Bool) (src dst : SockAddr) (h : TcpHeaderIn) (mtu : Nat) :
    NewResult :=
  let st : StreamState :=
    { src_addr := src
      dst_addr := dst
      mtu := mtu
      tcb := Tcb.new (seqAdd (wrap32 h.sequence_number) 1)
      packet_to_send := none
      shutdown := .None
      write_notify := false
      inbox := [] }
  if h.syn then .ok st
  else if !h.rst then
    match create_rev_packet src dst mtu st.tcb (RST ||| ACK) (hostTTL unix) none [] with
    | .ok pkt => .connectionRefused [pkt]
    | .err => .ioErr
    | .unreachableBranch => .panicked
  else .connectionRefused []

/-- Error kinds surfaced to the consumer. -/
inductive ErrKind where
  | NotConnected
  | TimedOut
  | ConnectionAborted
  | ConnectionReset
  | UnexpectedEof
  | Other
deriving DecidableEq, Repr

/-- Result of poll_flush. -/
inductive FlushResult where
  | ok
  | errKind (k : ErrKind)
  | panicked
deriving DecidableEq, Repr

/-- Embeds IpStackTcpStream::poll_flush: outside Established it fails with
NotConnected at once; otherwise a pending retransmission is taken and the
matching inflight entry is resent as PSH+ACK with its recorded sequence
number, and a missing entry panics. -/
def pollFlush (unix : Bool) (s : StreamState) :
    StreamState × List NetworkPacketM × FlushResult :=
  if s.tcb.state ≠ .Established then (s, [], .errKind .NotConnected)
  else
    match s.tcb.retransmission with
    | none => (s, [], .ok)
    | some sq =>
      let s1 := { s with tcb := { s.tcb with retransmission := none } }
      match s.tcb.inflight_packets.find? (fun p => p.seq == sq) with
      | some p =>
        match create_rev_packet s.src_addr s.dst_addr s.mtu s1.tcb
            (PSH ||| ACK) (hostTTL unix) (some p.seq) p.payload with
        | .ok pkt => (s1, [pkt], .ok)
        | .err => (s1, [], .errKind .Other)
        | .unreachableBranch => (s1, [], .panicked)
      | none => (s1, [], .panicked)

/-- Result of poll_write. -/
inductive WriteResult where
  | ready (n : Nat)
  | pending
  | errKind (k : ErrKind)
  | panicked
deriving DecidableEq, Repr

/-- Embeds IpStackTcpStream::poll_write: outside Established it fails with
NotConnected; it parks (registering the write waker) when the peer window
has shrunk below half the moving average or the send buffer is full; a
pending retransmission is flushed first; then the input is built into a
PSH+ACK segment (truncated by create_rev_packet), recorded inflight under
the pre-send sequence number, and the accepted byte count returned. -/
def pollWrite (unix : Bool) (s : StreamState) (buf : List Nat) :
    StreamState × List NetworkPacketM × WriteResult :=
  if s.tcb.state ≠ .Established then (s, [], .errKind .NotConnected)
  else if s.tcb.send_window < s.tcb.avg_send_window / 2 || s.tcb.is_send_buffer_full then
    ({ s with write_notify := true }, [], .pending)
  else
    let step1 :=
      if s.tcb.retransmission.isSome then
        pollFlush unix { s with write_notify := true }
      else (s, [], .ok)
    match step1 with
    | (s1, sent1, fr) =>
      if fr = .panicked then (s1, sent1, .panicked)
      else
        match create_rev_packet s1.src_addr s1.dst_addr s1.mtu s1.tcb
            (PSH ||| ACK) (hostTTL unix) none buf with
        | .ok pkt =>
          let sq := s1.tcb.seq
          ({ s1 with tcb := s1.tcb.add_inflight_packet sq pkt.payload },
           sent1 ++ [pkt], .ready pkt.payload.length)
        | .err => (s1, sent1, .errKind .Other)
        | .unreachableBranch => (s1, sent1, .panicked)

/-- Result of poll_read: delivered bytes (empty at EOF), pending, an error,
or a panic propagated from the flush path. -/
inductive ReadResult where
  | okBytes (b : List Nat)
  | pending
  | errKind (k : ErrKind)
  | panicked
deriving DecidableEq, Repr

/-- Outcome of one iteration of the poll_read loop: continue (with the
timeout-fired flag for the next iteration) or halt with a result. -/
inductive StepOut where
  | cont (s : StreamState) (sent : List NetworkPacketM) (timeoutFired : Bool)
  | halt (s : StreamState) (sent : List NetworkPacketM) (r : ReadResult)
deriving Repr

/-- Processes one dequeued inbound segment (tcp.rs poll_read lines 252-372):
RST closes the flow; an Invalid classification drops the segment; otherwise
the segment is dispatched on the current state and exact flag byte. -/
def handleSegment (unix : Bool) (s4 : StreamState) (sent2 : List NetworkPacketM)
    (hdr : TcpHeaderIn) (payload : List Nat) : StepOut :=
  let flags := hdr.flags
  let iack := wrap32 hdr.acknowledgment_number
  if flags &&& RST != 0 then
    .halt (shutdownReady { s4 with tcb := s4.tcb.change_state .Closed }) sent2
      (.errKind .ConnectionReset)
  else if s4.tcb.check_pkt_type hdr payload == .Invalid then .cont s4 sent2 false
  else if s4.tcb.state == .SynReceived then
    if flags == ACK then
      .cont { s4 with tcb := ((s4.tcb.change_last_ack iack).change_send_window
        hdr.window_size).change_state .Established } sent2 false
    else .cont s4 sent2 false
  else if s4.tcb.state == .Established then
    if flags == ACK then
      match s4.tcb.check_pkt_type hdr payload with
      | .WindowUpdate =>
        .cont { s4 with tcb := s4.tcb.change_send_window hdr.window_size
                        write_notify := false } sent2 false
      | .Invalid => .cont s4 sent2 false
      | .KeepAlive =>
        let t := (s4.tcb.change_last_ack iack).change_send_window hdr.window_size
        match create_rev_packet s4.src_addr s4.dst_addr s4.mtu t ACK
            (hostTTL unix) none [] with
        | .ok pkt => .cont { s4 with tcb := t, packet_to_send := some pkt } sent2 false
        | .err => .halt { s4 with tcb := t } sent2 (.errKind .Other)
        | .unreachableBranch => .halt { s4 with tcb := t } sent2 .panicked
      | .RetransmissionRequest =>
        let t := { s4.tcb.change_send_window hdr.window_size with
                   retransmission := some iack }
        match pollFlush unix { s4 with tcb := t } with
        | (s5, p5, fr) =>
          if fr = .panicked then .halt s5 (sent2 ++ p5) .panicked
          else .cont s5 (sent2 ++ p5) false
      | .NewPacket =>
        let t := (((s4.tcb.change_last_ack iack).add_unordered_packet
          (wrap32 hdr.sequence_number) payload).change_send_window hdr.window_size)
        .cont { s4 with tcb := t, write_notify := false } sent2 false
      | .Ack =>
        let t := (s4.tcb.change_last_ack iack).change_send_window hdr.window_size
        .cont { s4 with tcb := t, write_notify := false } sent2 false
    else if flags == FIN ||| ACK then
      let t := s4.tcb.add_ack 1
      match create_rev_packet s4.src_addr s4.dst_addr s4.mtu t ACK
          (hostTTL unix) none [] with
      | .ok pkt =>
        .cont { s4 with tcb := t.change_state (.FinWait1 true)
                        packet_to_send := some pkt } sent2 false
      | .err => .halt { s4 with tcb := t } sent2 (.errKind .Other)
      | .unreachableBranch => .halt { s4 with tcb := t } sent2 .panicked
    else if flags == PSH ||| ACK then
      if s4.tcb.check_pkt_type hdr payload != .NewPacket then .cont s4 sent2 false
      else
        let t := s4.tcb.change_last_ack iack
        if payload.isEmpty || t.ack != wrap32 hdr.sequence_number then
          .cont { s4 with tcb := t } sent2 false
        else
          let t2 := (t.change_send_window hdr.window_size).add_unordered_packet
            (wrap32 hdr.sequence_number) payload
          .cont { s4 with tcb := t2 } sent2 false
    else .cont s4 sent2 false
  else if s4.tcb.state == .FinWait1 false then
    if flags == ACK then
      .cont { s4 with tcb := (((s4.tcb.change_last_ack iack).add_ack 1).change_state
        (.FinWait2 true)) } sent2 false
    else if flags == FIN ||| ACK then
      let t := s4.tcb.add_ack 1
      match create_rev_packet s4.src_addr s4.dst_addr s4.mtu t ACK
          (hostTTL unix) none [] with
      | .ok pkt =>
        let t2 := (t.change_send_window hdr.window_size).change_state (.FinWait2 true)
        .cont { s4 with tcb := t2, packet_to_send := some pkt } sent2 false
      | .err => .halt { s4 with tcb := t } sent2 (.errKind .Other)
      | .unreachableBranch => .halt { s4 with tcb := t } sent2 .panicked
    else .cont s4 sent2 false
  else if s4.tcb.state == .FinWait2 true then
    if flags == ACK then
      .cont { s4 with tcb := s4.tcb.change_state (.FinWait2 false) } sent2 false
    else if flags == FIN ||| ACK then
      match create_rev_packet s4.src_addr s4.dst_addr s4.mtu s4.tcb ACK
          (hostTTL unix) none [] with
      | .ok pkt =>
        .cont { s4 with tcb := s4.tcb.change_state (.FinWait2 false)
                        packet_to_send := some pkt } sent2 false
      | .err => .halt s4 sent2 (.errKind .Other)
      | .unreachableBranch => .halt s4 sent2 .panicked
    else .cont s4 sent2 false
  else .cont s4 sent2 false

/-- Advertised-window refresh performed at the head of every poll_read
iteration: the receive window becomes the free reorder-buffer space, cast
to u16 (tcp.rs lines 206-207). -/
def refreshRecvWindow (t : Tcb) : Tcb :=
  t.change_recv_window (t.get_available_read_buffer_size % 65536)

/-- Body of one poll_read iteration after the buffered segment has been
emitted (tcp.rs poll_read lines 196-375): handle Closed and FinWait2(false),
refresh the advertised window, handle a fired idle timeout, the Listen
handshake reply, in-order delivery from the reorder buffer, the two
FIN-sending branches, then dequeue from the inbox. -/
def pollReadCore (unix timeoutFired : Bool) (s2 : StreamState)
    (sent2 : List NetworkPacketM) : StepOut :=
  if s2.tcb.state == .Closed then
    .halt (shutdownReady s2) sent2 (.okBytes [])
  else if s2.tcb.state == .FinWait2 false then
    .halt (shutdownReady { s2 with tcb := s2.tcb.change_state .Closed }) sent2
      (.errKind .ConnectionAborted)
  else
    let s3 := { s2 with tcb := refreshRecvWindow s2.tcb }
    if timeoutFired then
      match create_rev_packet s3.src_addr s3.dst_addr s3.mtu s3.tcb
          (RST ||| ACK) (hostTTL unix) none [] with
      | .ok pkt =>
        .halt (shutdownReady { s3 with tcb := s3.tcb.change_state .Closed })
          (sent2 ++ [pkt]) (.errKind .TimedOut)
      | .err => .halt s3 sent2 (.errKind .Other)
      | .unreachableBranch => .halt s3 sent2 .panicked
    else if s3.tcb.state == .Listen then
      match create_rev_packet s3.src_addr s3.dst_addr s3.mtu s3.tcb
          (SYN ||| ACK) (hostTTL unix) none [] with
      | .ok pkt =>
        .cont { s3 with packet_to_send := some pkt
                        tcb := (s3.tcb.add_seq_one).change_state .SynReceived }
          sent2 false
      | .err => .halt s3 sent2 (.errKind .Other)
      | .unreachableBranch => .halt s3 sent2 .panicked
    else
      match (if s3.shutdown == .None then s3.tcb.get_unordered_packets else none) with
      | some r =>
        let t2 := { s3.tcb with unordered_packets := r.2 }.add_ack r.1.length
        match create_rev_packet s3.src_addr s3.dst_addr s3.mtu t2 ACK
            (hostTTL unix) none [] with
        | .ok pkt => .halt { s3 with tcb := t2 } (sent2 ++ [pkt]) (.okBytes r.1)
        | .err => .halt { s3 with tcb := t2 } sent2 (.errKind .Other)
        | .unreachableBranch => .halt { s3 with tcb := t2 } sent2 .panicked
      | none =>
        if s3.tcb.state == .FinWait1 true then
          match create_rev_packet s3.src_addr s3.dst_addr s3.mtu s3.tcb
              (FIN ||| ACK) (hostTTL unix) none [] with
          | .ok pkt =>
            .cont { s3 with packet_to_send := some pkt
                            tcb := (((s3.tcb.add_seq_one).add_ack 1).change_state
                              (.FinWait2 true)) } sent2 false
          | .err => .halt s3 sent2 (.errKind .Other)
          | .unreachableBranch => .halt s3 sent2 .panicked
        else if s3.shutdown == .Pending && s3.tcb.state == .Established
            && s3.tcb.last_ack == s3.tcb.seq then
          match create_rev_packet s3.src_addr s3.dst_addr s3.mtu s3.tcb
              (FIN ||| ACK) (hostTTL unix) none [] with
          | .ok pkt =>
            .cont { s3 with packet_to_send := some pkt
                            tcb := ((s3.tcb.add_seq_one).change_state
                              (.FinWait1 false)) } sent2 false
          | .err => .halt s3 sent2 (.errKind .Other)
          | .unreachableBranch => .halt s3 sent2 .panicked
        else
          match s3.inbox with
          | [] => .halt s3 sent2 .pending
          | (hdr, payload) :: rest =>
            handleSegment unix { s3 with inbox := rest } sent2 hdr payload

/-- Remainder of one poll_read iteration after the retransmission flush
(tcp.rs poll_read lines 192-375): emit a buffered segment, then run the
iteration body. -/
def pollReadStepAfterFlush (unix timeoutFired : Bool) (s1 : StreamState)
    (sent1 : List NetworkPacketM) : StepOut :=
  let s2 : StreamState :=
    match s1.packet_to_send with
    | some _ => { s1 with packet_to_send := none }
    | none => s1
  let sent2 : List NetworkPacketM :=
    match s1.packet_to_send with
    | some pkt => sent1 ++ [pkt]
    | none => sent1
  pollReadCore unix timeoutFired s2 sent2

/-- One full iteration of the poll_read loop, starting with the
retransmission flush at the loop head (tcp.rs lines 185-190; the flush's
error, if any, is discarded there, but a panic propagates). -/
def pollReadStep (unix timeoutFired : Bool) (s0 : StreamState) : StepOut :=
  if s0.tcb.retransmission.isSome then
    match pollFlush unix { s0 with write_notify := true } with
    | (s1, p1, fr) =>
      if fr = .panicked then .halt s1 p1 .panicked
      else pollReadStepAfterFlush unix timeoutFired s1 p1
  else pollReadStepAfterFlush unix timeoutFired s0 []

/-- Fuelled iteration of poll_read; exhausted fuel stands for a poll that
has not yet resolved (pending). The timeout-fired flag is consumed by the
first iteration that reaches the timer check, matching reset_timeout. -/
def pollReadAux : Nat → Bool → Bool → StreamState → List NetworkPacketM →
    StreamState × List NetworkPacketM × ReadResult
  | 0, _, _, s, acc => (s, acc, .pending)
  | fuel + 1, unix, tf, s, acc =>
    match pollReadStep unix tf s with
    | .halt s1 sent r => (s1, acc ++ sent, r)
    | .cont s1 sent tf1 => pollReadAux fuel unix tf1 s1 (acc ++ sent)

/-- Embeds IpStackTcpStream::poll_read as a fuelled loop. -/
def pollRead (unix : Bool) (fuel : Nat) (timeoutFired : Bool) (s : StreamState) :
    StreamState × List NetworkPacketM × ReadResult :=
  pollReadAux fuel unix timeoutFired s []

/-- Embeds IpStackTcpStream::poll_shutdown: an already-ready shutdown
returns at once; otherwise a fresh shutdown moves to pending and the
poll_read machine is driven. -/
def pollShutdown (unix : Bool) (fuel : Nat) (timeoutFired : Bool) (s : StreamState) :
    StreamState × List NetworkPacketM × ReadResult :=
  if s.shutdown == .Ready then (s, [], .okBytes [])
  else
    let s1 := if s.shutdown == .None then { s with shutdown := .Pending } else s
    pollRead unix fuel timeoutFired s1

/-- Host platform, distinguishing the packet-information conventions of
lib.rs (the TUN_PROTO constants exist on Linux and macOS; the framing
prepend is compiled only on Unix). -/
inductive Platform where
  | linux
  | macos
  | windows
deriving DecidableEq, Repr

/-- Whether the platform is a Unix. -/
def Platform.isUnix : Platform → Bool
  | .windows => false
  | _ => true

/-- Framing flag bytes TUN_FLAGS from lib.rs. -/
def TUN_FLAGS : List Nat := [0, 0]

/-- Protocol identifier bytes per lib.rs: Linux uses 0x0800 for IPv4 and
0x86dd for IPv6; macOS uses 0x0002 for both. Windows compiles neither. -/
def tunProtoBytes : Platform → Bool → List Nat
  | .linux, true => [8, 0]
  | .linux, false => [134, 221]
  | .macos, _ => [0, 2]
  | .windows, _ => []

/-- Flow-table key: source and destination socket addresses plus a
TCP-or-UDP protocol marker. -/
structure NetworkTuple where
  src : SockAddr
  dst : SockAddr
  isTcp : Bool
deriving DecidableEq, Repr

/-- Source socket address of a packet, recovered from its IP header octets
and transport ports. -/
def NetworkPacketM.srcAddr (p : NetworkPacketM) : SockAddr :=
  let ipOf : List Nat → IpAddr := fun o =>
    match p.ip with
    | .ipv4 _ =>
      match o with
      | [a, b, c, d] => .v4 a b c d
      | _ => .v4 0 0 0 0
    | .ipv6 _ => .v6 o
  let srcOct := match p.ip with
    | .ipv4 h => h.source
    | .ipv6 h => h.source
  let port := match p.transport with
    | .tcp h => h.source_port
    | .udp sp _ => sp
  ⟨ipOf srcOct, port⟩

/-- Destination socket address of a packet. -/
def NetworkPacketM.dstAddr (p : NetworkPacketM) : SockAddr :=
  let ipOf : List Nat → IpAddr := fun o =>
    match p.ip with
    | .ipv4 _ =>
      match o with
      | [a, b, c, d] => .v4 a b c d
      | _ => .v4 0 0 0 0
    | .ipv6 _ => .v6 o
  let dstOct := match p.ip with
    | .ipv4 h => h.destination
    | .ipv6 h => h.destination
  let port := match p.transport with
    | .tcp h => h.destination_port
    | .udp _ dp => dp
  ⟨ipOf dstOct, port⟩

/-- Whether the transport header is TCP. -/
def NetworkPacketM.transportIsTcp (p : NetworkPacketM) : Bool :=
  match p.transport with
  | .tcp _ => true
  | .udp _ _ => false

/-- Whether the packet's transport header is TCP or UDP (always so for the
packets the codec produces). -/
def NetworkPacketM.transportIsTcpOrUdp (p : NetworkPacketM) : Bool :=
  match p.transport with
  | .tcp _ => true
  | .udp _ _ => true

/-- The packet's flow key. -/
def NetworkPacketM.networkTuple (p : NetworkPacketM) : NetworkTuple :=
  ⟨p.srcAddr, p.dstAddr, p.transportIsTcp⟩

/-- The packet's reverse flow key, with source and destination swapped. -/
def NetworkPacketM.reverseNetworkTuple (p : NetworkPacketM) : NetworkTuple :=
  ⟨p.dstAddr, p.srcAddr, p.transportIsTcp⟩

/-- Embeds the demultiplexer's handling of a first-seen TCP packet whose
tuple is vacant in the flow table (lib.rs lines 129-142): on successful
stream construction, the tuple is registered and an accept event emitted;
on failure nothing is registered. Returns the new table, whether an accept
event was emitted, and the packets the construction sent. -/
def demuxHandleTcpMiss (pl : Platform) (table : List NetworkTuple)
    (src dst : SockAddr) (h : TcpHeaderIn) (mtu : Nat) :
    List NetworkTuple × Bool × List NetworkPacketM :=
  match tcpStreamNew pl.isUnix src dst h mtu with
  | .ok _ => (table ++ [⟨src, dst, true⟩], true, [])
  | .connectionRefused sent => (table, false, sent)
  | .ioErr => (table, false, [])
  | .panicked => (table, false, [])

/-- Embeds the demultiplexer's outbox arm (lib.rs lines 157-179): a TCP or
UDP packet with IP TTL zero is a teardown sentinel that removes the
reverse tuple and writes nothing; otherwise the packet is serialized (a
serialization failure writes nothing) and, when packet-information framing
is enabled on a Unix platform, prefixed with TUN_FLAGS and the protocol
identifier bytes of its IP family before being written to the device. -/
def demuxOutbox (pl : Platform) (packetInformation : Bool)
    (serialize : NetworkPacketM → Option (List Nat))
    (table : List NetworkTuple) (pkt : NetworkPacketM) :
    List NetworkTuple × Option (List Nat) :=
  if pkt.transportIsTcpOrUdp && pkt.ttl == 0 then
    (table.erase pkt.reverseNetworkTuple, none)
  else
    match serialize pkt with
    | none => (table, none)
    | some bs =>
      if pl.isUnix && packetInformation then
        (table, some ((TUN_FLAGS ++ tunProtoBytes pl pkt.isV4) ++ bs))
      else (table, some bs)

/-- Length of the IP header create_rev_packet builds for this destination
family: 20 bytes for IPv4, 40 for IPv6. -/
def ipHdrLen (a : SockAddr) : Nat := if a.ip.isV4 then 20 else 40

/-- Concrete peer address 10.0.0.1:1234 used in witness scenarios. -/
def addrV4a : SockAddr := ⟨.v4 10 0 0 1, 1234⟩

/-- Concrete local address 10.0.0.2:80 used in witness scenarios. -/
def addrV4b : SockAddr := ⟨.v4 10 0 0 2, 80⟩

/-- An Established TCB with our seq and the peer's cumulative ack at 3 and
the next expected peer sequence number 1000, parameterized by the receive
window and the reorder-buffer contents. -/
def estabTcb (rw : Nat) (uo : List (Nat × List Nat)) : Tcb :=
  { seq := 3
    last_ack := 3
    ack := 1000
    recv_window := rw
    send_window := 65535
    avg_send_window := 65535
    inflight_packets := []
    unordered_packets := uo
    retransmission := none
    state := .Established }

/-- A data segment header from the peer: given sequence number, ack 3
(covering everything we sent), window 65535, flags ACK or PSH+ACK. -/
def dataHdr (sq : Nat) (psh : Bool) : TcpHeaderIn :=
  { sequence_number := sq
    acknowledgment_number := 3
    window_size := 65535
    syn := false
    ack := true
    rst := false
    fin := false
    psh := psh }

/-- An Established flow over addrV4a/addrV4b with MTU 1500, parameterized
by receive window, reorder-buffer contents and queued inbox segments. -/
def estabStream (rw : Nat) (uo : List (Nat × List Nat))
    (inb : List (TcpHeaderIn × List Nat)) : StreamState :=
  { src_addr := addrV4a
    dst_addr := addrV4b
    mtu := 1500
    tcb := estabTcb rw uo
    packet_to_send := none
    shutdown := .None
    write_notify := false
    inbox := inb }

/-- A minimal concrete outbox TCP packet from addrV4b toward addrV4a with
the given TTL, used in demux witness scenarios. -/
def outboxPkt (ttl : Nat) : NetworkPacketM :=
  { ip := .ipv4 { ttl := ttl
                  source := [10, 0, 0, 2]
                  destination := [10, 0, 0, 1]
                  payload_len := 20
                  dont_fragment := true }
    transport := .tcp { source_port := 80
                        destination_port := 1234
                        sequence_number := 0
                        acknowledgment_number := 0
                        window_size := 0
                        syn := false
                        ack := false
                        rst := false
                        fin := false
                        psh := false
                        checksum := 0 }
    payload := [] }

/-- Shutdown-safety of one loop step, relative to the shutdown progress the
step started from: the progression never moves backwards, and whenever it
stands at Ready the connection state is Closed. -/
def stepShutdownOk (sh : ShutdownS) : StepOut → Prop
  | .cont s1 _ _ =>
    shutdownRank sh ≤ shutdownRank s1.shutdown ∧
    (s1.shutdown = .Ready → s1.tcb.state = .Closed)
  | .halt s1 _ _ =>
    shutdownRank sh ≤ shutdownRank s1.shutdown ∧
    (s1.shutdown = .Ready → s1.tcb.state = .Closed)

/-- The flag byte an outgoing packet built from a flag argument carries:
each requested bit is reproduced. -/
def flagByte (f : Nat) : Nat :=
  (if f &&& FIN != 0 then FIN else 0) + (if f &&& SYN != 0 then SYN else 0) +
  (if f &&& RST != 0 then RST else 0) + (if f &&& PSH != 0 then PSH else 0) +
  (if f &&& ACK != 0 then ACK else 0)

section Lemmas

/-- Projections of change_recv_window. -/
theorem change_recv_window_fields (t : Tcb) (w : Nat) :
    (t.change_recv_window w).state = t.state ∧
    (t.change_recv_window w).ack = t.ack ∧
    (t.change_recv_window w).seq = t.seq ∧
    (t.change_recv_window w).last_ack = t.last_ack ∧
    (t.change_recv_window w).unordered_packets = t.unordered_packets ∧
    (t.change_recv_window w).retransmission = t.retransmission ∧
    (t.change_recv_window w).inflight_packets = t.inflight_packets :=
  ⟨rfl, rfl, rfl, rfl, rfl, rfl, rfl⟩

/-- A reorder buffer with nothing at the expected sequence number drains
nothing. -/
theorem get_unordered_packets_none (t : Tcb)
    (h : lookupAssoc t.unordered_packets t.ack = none) :
    t.get_unordered_packets = none := by
  unfold Tcb.get_unordered_packets
  cases hm : t.unordered_packets with
  | nil => simp [drainLoop]
  | cons p rest =>
    rw [hm] at h
    simp [drainLoop, h]

/-- Bound used to discharge the IPv4 length guard of create_rev_packet. -/
theorem take_plen_le (payload : List Nat) (sw mtu a b : Nat) :
    (payload.take (calculate_payload_max_len sw mtu a b)).length
      ≤ mtu - (a + b) := by
  refine le_trans (List.length_take_le _ _) ?_
  unfold calculate_payload_max_len
  omega

/-- For same-family addresses and a u16-bounded MTU, create_rev_packet
takes a defined branch and yields a packet. -/
theorem create_rev_packet_isOk (src dst : SockAddr) (mtu : Nat) (tcb : Tcb)
    (flags ttl : Nat) (seqArg : Option Nat) (payload : List Nat)
    (hfam : sameFamily src dst = true) (hm : mtu ≤ 65535) :
    ∃ pkt, create_rev_packet src dst mtu tcb flags ttl seqArg payload = .ok pkt := by
  rcases hsrc : src.ip with ⟨s0, s1, s2, s3⟩ | sOct <;>
    rcases hdst : dst.ip with ⟨d0, d1, d2, d3⟩ | dOct
  case _ =>
    have hif : ¬(65515 < (payload.take
        (calculate_payload_max_len tcb.send_window mtu 20 20)).length + 20) := by
      have := take_plen_le payload tcb.send_window mtu 20 20
      omega
    unfold create_rev_packet
    rw [hsrc, hdst]
    exact ⟨_, by simp only [if_neg hif]; rfl⟩
  case _ =>
    exfalso
    simp [sameFamily, hsrc, hdst] at hfam
  case _ =>
    exfalso
    simp [sameFamily, hsrc, hdst] at hfam
  case _ =>
    have hif : ¬(65535 < (payload.take
        (calculate_payload_max_len tcb.send_window mtu 40 20)).length + 20) := by
      have := take_plen_le payload tcb.send_window mtu 40 20
      omega
    unfold create_rev_packet
    rw [hsrc, hdst]
    exact ⟨_, by simp only [if_neg hif]; rfl⟩

/-- Every packet create_rev_packet yields carries the requested TTL and
flag bits, the overridden (or current) sequence number, the TCB's ack and
receive window, and the input payload truncated to the computed maximum. -/
theorem create_rev_packet_fields (src dst : SockAddr) (mtu : Nat) (tcb : Tcb)
    (flags ttl : Nat) (seqArg : Option Nat) (payload : List Nat)
    (pkt : NetworkPacketM)
    (heq : create_rev_packet src dst mtu tcb flags ttl seqArg payload = .ok pkt) :
    pkt.ttl = ttl ∧
    pkt.tcpSeq = seqArg.getD tcb.seq ∧
    pkt.tcpAck = tcb.ack ∧
    pkt.tcpFlags = flagByte flags ∧
    pkt.payload = payload.take
      (calculate_payload_max_len tcb.send_window mtu (ipHdrLen dst) 20) := by
  rcases hsrc : src.ip with ⟨s0, s1, s2, s3⟩ | sOct <;>
    rcases hdst : dst.ip with ⟨d0, d1, d2, d3⟩ | dOct <;>
    unfold create_rev_packet at heq <;>
    rw [hsrc, hdst] at heq <;>
    simp only [] at heq
  case _ =>
    by_cases hif : 65515 < (payload.take
        (calculate_payload_max_len tcb.send_window mtu 20 20)).length + 20
    · rw [if_pos hif] at heq
      exact absurd heq (by simp)
    · rw [if_neg hif] at heq
      injection heq with heq2
      subst heq2
      refine ⟨rfl, rfl, rfl, rfl, ?_⟩
      simp [NetworkPacketM.payload, ipHdrLen, hdst, IpAddr.isV4]
  case _ => exact absurd heq (by simp)
  case _ => exact absurd heq (by simp)
  case _ =>
    by_cases hif : 65535 < (payload.take
        (calculate_payload_max_len tcb.send_window mtu 40 20)).length + 20
    · rw [if_pos hif] at heq
      exact absurd heq (by simp)
    · rw [if_neg hif] at heq
      injection heq with heq2
      subst heq2
      refine ⟨rfl, rfl, rfl, rfl, ?_⟩
      simp [NetworkPacketM.payload, ipHdrLen, hdst, IpAddr.isV4]

/-- The window refresh does not disturb the reorder-buffer drain. -/
theorem refreshRecvWindow_get_unordered (t : Tcb) :
    (refreshRecvWindow t).get_unordered_packets = t.get_unordered_packets := rfl

/-- Field projections of the window refresh. -/
theorem refreshRecvWindow_state (t : Tcb) : (refreshRecvWindow t).state = t.state := rfl

/-- When no retransmission is pending, the flush at the head of the loop is
skipped and a poll_read iteration with an unfired timer that finds no
buffered segment, an open connection state, no deliverable reorder-buffer
prefix and an un-begun shutdown dequeues the head of the inbox and
dispatches it. -/
theorem pollReadStep_dequeue (unix : Bool) (s : StreamState) (hdr : TcpHeaderIn)
    (payload : List Nat) (rest : List (TcpHeaderIn × List Nat))
    (hr : s.tcb.retransmission = none)
    (hp : s.packet_to_send = none)
    (hc : s.tcb.state ≠ .Closed)
    (hf : s.tcb.state ≠ .FinWait2 false)
    (hl : s.tcb.state ≠ .Listen)
    (hw : s.tcb.state ≠ .FinWait1 true)
    (hs : s.shutdown = .None)
    (hu : (refreshRecvWindow s.tcb).get_unordered_packets = none)
    (hi : s.inbox = (hdr, payload) :: rest) :
    pollReadStep unix false s =
      handleSegment unix
        { s with tcb := refreshRecvWindow s.tcb, inbox := rest } [] hdr payload := by
  unfold pollReadStep pollReadStepAfterFlush pollReadCore
  rw [hr]
  simp only [Option.isSome_none, Bool.false_eq_true, if_false, hp, hs, hi]
  simp [refreshRecvWindow_state, hc, hf, hl, hw, hu, hs]

/-- A poll_read iteration with an unfired timer, an open state and an
un-begun shutdown that finds a deliverable contiguous prefix in the reorder
buffer advances `ack` by its length, emits one bare ACK built from the
updated TCB, and returns the bytes to the consumer. -/
theorem pollReadStep_deliver (unix : Bool) (s : StreamState) (b : List Nat)
    (m2 : List (Nat × List Nat)) (pkt : NetworkPacketM)
    (hr : s.tcb.retransmission = none)
    (hp : s.packet_to_send = none)
    (hc : s.tcb.state ≠ .Closed)
    (hf : s.tcb.state ≠ .FinWait2 false)
    (hl : s.tcb.state ≠ .Listen)
    (hs : s.shutdown = .None)
    (hu : (refreshRecvWindow s.tcb).get_unordered_packets = some (b, m2))
    (hcr : create_rev_packet s.src_addr s.dst_addr s.mtu
        (({ refreshRecvWindow s.tcb with unordered_packets := m2 }).add_ack b.length)
        ACK (hostTTL unix) none [] = .ok pkt) :
    pollReadStep unix false s =
      .halt { s with tcb :=
          ({ refreshRecvWindow s.tcb with unordered_packets := m2 }).add_ack b.length }
        [pkt] (.okBytes b) := by
  unfold pollReadStep pollReadStepAfterFlush pollReadCore
  rw [hr]
  simp only [Option.isSome_none, Bool.false_eq_true, if_false, hp, hs]
  simp only [refreshRecvWindow_state] at hcr
  simp [refreshRecvWindow_state, hc, hf, hl, hu, hs, hcr]

/-- A non-SYN non-RST first segment makes stream construction emit a
RST+ACK whose sequence number is the fresh TCB's seq (0), with ack one past
the incoming sequence number, and fail with connection-refused. -/
theorem tcpStreamNew_refused (unix : Bool) (src dst : SockAddr)
    (h : TcpHeaderIn) (mtu : Nat)
    (hsyn : h.syn = false) (hrst : h.rst = false)
    (hfam : sameFamily src dst = true) (hm : mtu ≤ 65535) :
    ∃ pkt, tcpStreamNew unix src dst h mtu = .connectionRefused [pkt] ∧
      pkt.tcpSeq = 0 ∧ pkt.tcpFlags = flagByte (RST ||| ACK) ∧
      pkt.tcpAck = seqAdd (wrap32 h.sequence_number) 1 ∧
      pkt.ttl = hostTTL unix := by
  obtain ⟨pkt, hok⟩ := create_rev_packet_isOk src dst mtu
    (Tcb.new (seqAdd (wrap32 h.sequence_number) 1)) (RST ||| ACK)
    (hostTTL unix) none [] hfam hm
  obtain ⟨httl, hseq, hack2, hflags, -⟩ := create_rev_packet_fields _ _ _ _ _ _ _ _ _ hok
  refine ⟨pkt, ?_, by simpa using hseq, hflags, by simpa using hack2, httl⟩
  unfold tcpStreamNew
  simp only [hsyn, hrst, Bool.false_eq_true, if_false, Bool.not_false, if_true, hok]

/-- Unfolding equation for one fuelled poll_read iteration. -/
theorem pollReadAux_succ (fuel : Nat) (unix tf : Bool) (s : StreamState)
    (acc : List NetworkPacketM) :
    pollReadAux (fuel + 1) unix tf s acc =
      match pollReadStep unix tf s with
      | .halt s1 sent r => (s1, acc ++ sent, r)
      | .cont s1 sent tf1 => pollReadAux fuel unix tf1 s1 (acc ++ sent) := rfl

/-- One fuelled iteration whose step continues: the loop recurses on the
successor state with the emitted packets appended. -/
theorem pollReadAux_succ_cont (fuel : Nat) (unix tf tf1 : Bool)
    (s s1 : StreamState) (sent : List NetworkPacketM)
    (acc : List NetworkPacketM)
    (h : pollReadStep unix tf s = .cont s1 sent tf1) :
    pollReadAux (fuel + 1) unix tf s acc =
      pollReadAux fuel unix tf1 s1 (acc ++ sent) := by
  rw [pollReadAux_succ, h]

/-- One fuelled iteration whose step halts: the loop returns the halt
state, the accumulated packets and the step's read result. -/
theorem pollReadAux_succ_halt (fuel : Nat) (unix tf : Bool)
    (s s1 : StreamState) (sent : List NetworkPacketM) (r : ReadResult)
    (acc : List NetworkPacketM)
    (h : pollReadStep unix tf s = .halt s1 sent r) :
    pollReadAux (fuel + 1) unix tf s acc = (s1, acc ++ sent, r) := by
  rw [pollReadAux_succ, h]

/-- An Established flow receiving a bare-ACK segment classified NewPacket
adopts the cumulative ack, stores the payload in the reorder buffer keyed
by its sequence number, adopts the advertised window, and wakes the write
waker (tcp.rs poll_read lines 299-319). -/
theorem handleSegment_established_ack_new (unix : Bool) (s4 : StreamState)
    (sent : List NetworkPacketM) (hdr : TcpHeaderIn) (payload : List Nat)
    (hflags : hdr.flags = ACK)
    (hst : s4.tcb.state = .Established)
    (hck : s4.tcb.check_pkt_type hdr payload = .NewPacket) :
    handleSegment unix s4 sent hdr payload =
      .cont { s4 with
          tcb := (((s4.tcb.change_last_ack (wrap32 hdr.acknowledgment_number)
            ).add_unordered_packet (wrap32 hdr.sequence_number) payload
            ).change_send_window hdr.window_size)
          write_notify := false } sent false := by
  unfold handleSegment
  rw [hflags, hck]
  have hb : (16 : Nat) &&& 4 = 0 := by decide
  simp [hst, ACK, RST, hb]

/-- An ACK that does not advance the cumulative ack leaves the TCB
unchanged. -/
theorem change_last_ack_noop (t : Tcb) (a : Nat) (h : seqLt t.last_ack a = false) :
    t.change_last_ack a = t := by
  unfold Tcb.change_last_ack
  rw [h]
  simp

/-- Variant of the NewPacket dispatch equation with the resulting state
supplied explicitly through an equality hypothesis, so that rewriting with
it closes goals syntactically. -/
theorem handleSegment_established_ack_new2 (unix : Bool) (s4 : StreamState)
    (sent : List NetworkPacketM) (hdr : TcpHeaderIn) (payload : List Nat)
    (sOut : StreamState)
    (hflags : hdr.flags = ACK)
    (hst : s4.tcb.state = .Established)
    (hck : s4.tcb.check_pkt_type hdr payload = .NewPacket)
    (hout : { s4 with
        tcb := (((s4.tcb.change_last_ack (wrap32 hdr.acknowledgment_number)
          ).add_unordered_packet (wrap32 hdr.sequence_number) payload
          ).change_send_window hdr.window_size)
        write_notify := false } = sOut) :
    handleSegment unix s4 sent hdr payload = .cont sOut sent false := by
  rw [handleSegment_established_ack_new unix s4 sent hdr payload hflags hst hck, hout]

/-- Variant of the delivery iteration with the resulting state supplied
explicitly through an equality hypothesis. -/
theorem pollReadStep_deliver2 (unix : Bool) (s : StreamState) (b : List Nat)
    (m2 : List (Nat × List Nat)) (pkt : NetworkPacketM) (sOut : StreamState)
    (hr : s.tcb.retransmission = none)
    (hp : s.packet_to_send = none)
    (hc : s.tcb.state ≠ .Closed)
    (hf : s.tcb.state ≠ .FinWait2 false)
    (hl : s.tcb.state ≠ .Listen)
    (hs : s.shutdown = .None)
    (hu : (refreshRecvWindow s.tcb).get_unordered_packets = some (b, m2))
    (hcr : create_rev_packet s.src_addr s.dst_addr s.mtu
        (({ refreshRecvWindow s.tcb with unordered_packets := m2 }).add_ack b.length)
        ACK (hostTTL unix) none [] = .ok pkt)
    (hout : { s with tcb :=
        ({ refreshRecvWindow s.tcb with unordered_packets := m2 }).add_ack b.length }
        = sOut) :
    pollReadStep unix false s = .halt sOut [pkt] (.okBytes b) := by
  rw [pollReadStep_deliver unix s b m2 pkt hr hp hc hf hl hs hu hcr, hout]

/-- Specialization of one poll_read iteration to the concrete Established
scenario flow: a queued bare-ACK data segment classified NewPacket is
dequeued and stored in the reorder buffer keyed by its sequence number,
with the advertised window refreshed first; nothing is emitted. -/
theorem pollReadStep_estab_data (rw rwX sq : Nat) (uo uoOut : List (Nat × List Nat))
    (payload : List Nat) (rest : List (TcpHeaderIn × List Nat))
    (hrw : refreshRecvWindow (estabTcb rw uo) = estabTcb rwX uo)
    (hnl : lookupAssoc uo 1000 = none)
    (hck : (estabTcb rwX uo).check_pkt_type (dataHdr sq false) payload = .NewPacket)
    (huo : upsertAssoc uo (wrap32 sq) payload = uoOut) :
    pollReadStep true false (estabStream rw uo ((dataHdr sq false, payload) :: rest)) =
      .cont (estabStream rwX uoOut rest) [] false := by
  have htcb : (estabStream rw uo ((dataHdr sq false, payload) :: rest)).tcb
      = estabTcb rw uo := rfl
  have hu : (refreshRecvWindow
      (estabStream rw uo ((dataHdr sq false, payload) :: rest)).tcb).get_unordered_packets
      = none := by
    rw [htcb, hrw]
    exact get_unordered_packets_none _ hnl
  rw [pollReadStep_dequeue true (estabStream rw uo ((dataHdr sq false, payload) :: rest))
      (dataHdr sq false) payload rest
      rfl rfl (by simp [estabStream, estabTcb]) (by simp [estabStream, estabTcb])
      (by simp [estabStream, estabTcb]) (by simp [estabStream, estabTcb])
      rfl hu rfl]
  rw [htcb, hrw]
  rw [handleSegment_established_ack_new2 true
      { estabStream rw uo ((dataHdr sq false, payload) :: rest) with
        tcb := estabTcb rwX uo
        inbox := rest }
      [] (dataHdr sq false) payload (estabStream rwX uoOut rest) rfl rfl hck ?hout]
  case hout =>
    have hw3 : wrap32 (dataHdr sq false).acknowledgment_number = 3 := rfl
    have hla : (estabTcb rwX uo).last_ack = 3 := rfl
    have e1 : ({ estabStream rw uo ((dataHdr sq false, payload) :: rest) with
        tcb := estabTcb rwX uo
        inbox := rest } : StreamState).tcb.change_last_ack
        (wrap32 (dataHdr sq false).acknowledgment_number) = estabTcb rwX uo := by
      rw [hw3]
      exact change_last_ack_noop (estabTcb rwX uo) 3 (by rw [hla]; rfl)
    rw [e1]
    have e2 : (estabTcb rwX uo).add_unordered_packet
        (wrap32 (dataHdr sq false).sequence_number) payload =
        estabTcb rwX (upsertAssoc uo (wrap32 (dataHdr sq false).sequence_number)
          payload) := by
      simp [estabTcb, Tcb.add_unordered_packet]
    rw [e2]
    have e3 : upsertAssoc uo (wrap32 (dataHdr sq false).sequence_number) payload
        = uoOut := huo
    rw [e3]
    have e4 : (estabTcb rwX uoOut).change_send_window
        (dataHdr sq false).window_size = estabTcb rwX uoOut := by
      unfold estabTcb Tcb.change_send_window dataHdr
      norm_num
    rw [e4]
    simp [estabStream, estabTcb]

/-- A poll_read iteration that reaches the timer check with the idle
deadline fired emits a RST+ACK built from the refreshed TCB, closes the
connection, marks shutdown ready and fails with TimedOut. -/
theorem pollReadStep_timeout (unix : Bool) (s : StreamState) (pkt : NetworkPacketM)
    (hr : s.tcb.retransmission = none)
    (hp : s.packet_to_send = none)
    (hc : s.tcb.state ≠ .Closed)
    (hf : s.tcb.state ≠ .FinWait2 false)
    (hcr : create_rev_packet s.src_addr s.dst_addr s.mtu
        (refreshRecvWindow s.tcb) (RST ||| ACK) (hostTTL unix) none [] = .ok pkt) :
    pollReadStep unix true s =
      .halt (shutdownReady
          { s with tcb := (refreshRecvWindow s.tcb).change_state .Closed })
        [pkt] (.errKind .TimedOut) := by
  unfold pollReadStep pollReadStepAfterFlush pollReadCore
  rw [hr]
  simp only [Option.isSome_none, Bool.false_eq_true, if_false, hp]
  simp [refreshRecvWindow_state, hc, hf, hcr]

/-- Rank of any shutdown progress point is at most the rank of Ready. -/
theorem shutdownRank_le_two (sh : ShutdownS) : shutdownRank sh ≤ 2 := by
  cases sh <;> simp [shutdownRank]

/-- A retransmission flush never touches the shutdown progress or the
connection state (tcp.rs poll_flush only clears the retransmission mark
and resends an inflight segment). -/
theorem pollFlush_eq_fields (unix : Bool) (s s5 : StreamState)
    (p5 : List NetworkPacketM) (fr : FlushResult)
    (heq : pollFlush unix s = (s5, p5, fr)) :
    s5.shutdown = s.shutdown ∧ s5.tcb.state = s.tcb.state := by
  unfold pollFlush at heq
  split at heq
  · simp_all
  · split at heq
    · simp_all
    · dsimp only at heq
      split at heq
      · split at heq
        all_goals simp_all [Prod.mk.injEq]
        all_goals (obtain ⟨h5, -, -⟩ := heq; subst h5; simp_all)
      · simp_all [Prod.mk.injEq]
        obtain ⟨h5, -, -⟩ := heq
        subst h5
        simp_all

set_option maxHeartbeats 2000000 in
/-- Processing one inbound segment keeps the shutdown progression moving
forward and only stands at Ready with the connection Closed: the one site
marking shutdown ready in the segment handler (the RST arm) also moves the
TCB to Closed, and every other arm leaves the shutdown progress unchanged. -/
theorem handleSegment_shutdownOk_eq (unix : Bool) (s4 : StreamState)
    (sent2 : List NetworkPacketM) (hdr : TcpHeaderIn) (payload : List Nat)
    (out : StepOut)
    (hinv : s4.shutdown = .Ready → s4.tcb.state = .Closed)
    (hq : handleSegment unix s4 sent2 hdr payload = out) :
    stepShutdownOk s4.shutdown out := by
  unfold handleSegment at hq
  dsimp only at hq
  by_cases h1 : (hdr.flags &&& RST != 0) = true
  · rw [if_pos h1] at hq
    subst hq
    refine ⟨?_, fun hr => ?_⟩
    · exact shutdownRank_le_two _
    · simp [shutdownReady, Tcb.change_state]
  · rw [if_neg h1] at hq
    by_cases h2 : (s4.tcb.check_pkt_type hdr payload == PacketStatus.Invalid) = true
    · rw [if_pos h2] at hq
      subst hq
      exact ⟨le_rfl, hinv⟩
    · rw [if_neg h2] at hq
      by_cases h3 : (s4.tcb.state == TcpState.SynReceived) = true
      · rw [if_pos h3] at hq
        split at hq
        all_goals subst hq
        all_goals refine ⟨le_rfl, fun hr => ?_⟩
        all_goals have hc := hinv hr
        all_goals simp_all [Tcb.change_state]
      · rw [if_neg h3] at hq
        by_cases h4 : (s4.tcb.state == TcpState.Established) = true
        · rw [if_pos h4] at hq
          by_cases h5 : (hdr.flags == ACK) = true
          · rw [if_pos h5] at hq
            split at hq
            · subst hq
              refine ⟨le_rfl, fun hr => ?_⟩
              have hc := hinv hr
              simp_all [Tcb.change_send_window]
            · subst hq
              exact ⟨le_rfl, hinv⟩
            · split at hq
              all_goals subst hq
              all_goals refine ⟨le_rfl, fun hr => ?_⟩
              all_goals have hc := hinv hr
              all_goals simp_all [Tcb.change_last_ack, Tcb.change_send_window]
            · rcases hpf : pollFlush unix { s4 with
                  tcb := { s4.tcb.change_send_window hdr.window_size with
                           retransmission := some (wrap32 hdr.acknowledgment_number) } }
                with ⟨s5, p5, fr⟩
              rw [hpf] at hq
              dsimp only at hq
              obtain ⟨hsh, hst⟩ := pollFlush_eq_fields unix _ s5 p5 fr hpf
              split at hq
              all_goals subst hq
              all_goals refine ⟨?_, fun hr => ?_⟩
              all_goals simp_all [Tcb.change_send_window]
            · subst hq
              refine ⟨le_rfl, fun hr => ?_⟩
              have hc := hinv hr
              simp_all [Tcb.change_last_ack, Tcb.change_send_window,
                Tcb.add_unordered_packet]
            · subst hq
              refine ⟨le_rfl, fun hr => ?_⟩
              have hc := hinv hr
              simp_all [Tcb.change_last_ack, Tcb.change_send_window]
          · rw [if_neg h5] at hq
            by_cases h6 : (hdr.flags == FIN ||| ACK) = true
            · rw [if_pos h6] at hq
              split at hq
              all_goals subst hq
              all_goals refine ⟨le_rfl, fun hr => ?_⟩
              all_goals have hc := hinv hr
              all_goals simp_all [Tcb.add_ack, Tcb.change_state]
            · rw [if_neg h6] at hq
              by_cases h7 : (hdr.flags == PSH ||| ACK) = true
              · rw [if_pos h7] at hq
                split at hq
                · subst hq
                  exact ⟨le_rfl, hinv⟩
                · split at hq
                  all_goals subst hq
                  all_goals refine ⟨le_rfl, fun hr => ?_⟩
                  all_goals have hc := hinv hr
                  all_goals simp_all [Tcb.change_last_ack, Tcb.change_send_window,
                    Tcb.add_unordered_packet]
              · rw [if_neg h7] at hq
                subst hq
                exact ⟨le_rfl, hinv⟩
        · rw [if_neg h4] at hq
          by_cases h8 : (s4.tcb.state == TcpState.FinWait1 false) = true
          · rw [if_pos h8] at hq
            by_cases h9 : (hdr.flags == ACK) = true
            · rw [if_pos h9] at hq
              subst hq
              refine ⟨le_rfl, fun hr => ?_⟩
              have hc := hinv hr
              simp_all [Tcb.change_last_ack, Tcb.add_ack, Tcb.change_state]
            · rw [if_neg h9] at hq
              by_cases h10 : (hdr.flags == FIN ||| ACK) = true
              · rw [if_pos h10] at hq
                split at hq
                all_goals subst hq
                all_goals refine ⟨le_rfl, fun hr => ?_⟩
                all_goals have hc := hinv hr
                all_goals simp_all [Tcb.add_ack, Tcb.change_send_window, Tcb.change_state]
              · rw [if_neg h10] at hq
                subst hq
                exact ⟨le_rfl, hinv⟩
          · rw [if_neg h8] at hq
            by_cases h11 : (s4.tcb.state == TcpState.FinWait2 true) = true
            · rw [if_pos h11] at hq
              by_cases h12 : (hdr.flags == ACK) = true
              · rw [if_pos h12] at hq
                subst hq
                refine ⟨le_rfl, fun hr => ?_⟩
                have hc := hinv hr
                simp_all [Tcb.change_state]
              · rw [if_neg h12] at hq
                by_cases h13 : (hdr.flags == FIN ||| ACK) = true
                · rw [if_pos h13] at hq
                  split at hq
                  all_goals subst hq
                  all_goals refine ⟨le_rfl, fun hr => ?_⟩
                  all_goals have hc := hinv hr
                  all_goals simp_all [Tcb.change_state]
                · rw [if_neg h13] at hq
                  subst hq
                  exact ⟨le_rfl, hinv⟩
            · rw [if_neg h11] at hq
              subst hq
              exact ⟨le_rfl, hinv⟩

set_option maxHeartbeats 2000000 in
/-- The body of one poll_read iteration keeps the shutdown progression
moving forward and only stands at Ready with the connection Closed: the
ready-marking sites are the Closed handler, the FinWait2(false) handler and
the idle-timeout handler, each of which leaves or puts the TCB at Closed. -/
theorem pollReadCore_shutdownOk_eq (unix tf : Bool) (s2 : StreamState)
    (sent2 : List NetworkPacketM) (out : StepOut)
    (hinv : s2.shutdown = .Ready → s2.tcb.state = .Closed)
    (hq : pollReadCore unix tf s2 sent2 = out) :
    stepShutdownOk s2.shutdown out := by
  unfold pollReadCore at hq
  dsimp only at hq
  by_cases hc1 : (s2.tcb.state == TcpState.Closed) = true
  · rw [if_pos hc1] at hq
    subst hq
    refine ⟨shutdownRank_le_two _, fun hr => ?_⟩
    simp_all [shutdownReady]
  · rw [if_neg hc1] at hq
    by_cases hc2 : (s2.tcb.state == TcpState.FinWait2 false) = true
    · rw [if_pos hc2] at hq
      subst hq
      refine ⟨shutdownRank_le_two _, fun hr => ?_⟩
      simp [shutdownReady, Tcb.change_state]
    · rw [if_neg hc2] at hq
      by_cases hc3 : tf = true
      · rw [if_pos hc3] at hq
        split at hq
        · subst hq
          refine ⟨shutdownRank_le_two _, fun hr => ?_⟩
          simp [shutdownReady, Tcb.change_state]
        all_goals subst hq
        all_goals refine ⟨le_rfl, fun hr => ?_⟩
        all_goals have hc := hinv hr
        all_goals simp_all
      · rw [if_neg hc3] at hq
        by_cases hc4 : ((refreshRecvWindow s2.tcb).state == TcpState.Listen) = true
        · rw [if_pos hc4] at hq
          split at hq
          all_goals subst hq
          all_goals refine ⟨le_rfl, fun hr => ?_⟩
          all_goals have hc := hinv hr
          all_goals simp_all
        · rw [if_neg hc4] at hq
          split at hq
          · split at hq
            all_goals subst hq
            all_goals refine ⟨le_rfl, fun hr => ?_⟩
            all_goals have hc := hinv hr
            all_goals simp_all
          · by_cases hc5 : ((refreshRecvWindow s2.tcb).state == TcpState.FinWait1 true) = true
            · rw [if_pos hc5] at hq
              split at hq
              all_goals subst hq
              all_goals refine ⟨le_rfl, fun hr => ?_⟩
              all_goals have hc := hinv hr
              all_goals simp_all
            · rw [if_neg hc5] at hq
              by_cases hc6 : (s2.shutdown == ShutdownS.Pending
                  && (refreshRecvWindow s2.tcb).state == TcpState.Established
                  && (refreshRecvWindow s2.tcb).last_ack == (refreshRecvWindow s2.tcb).seq) = true
              · rw [if_pos hc6] at hq
                split at hq
                all_goals subst hq
                all_goals refine ⟨le_rfl, fun hr => ?_⟩
                all_goals have hc := hinv hr
                all_goals simp_all
              · rw [if_neg hc6] at hq
                split at hq
                · subst hq
                  exact ⟨le_rfl, hinv⟩
                · rename_i hdr payload rest heqI
                  refine handleSegment_shutdownOk_eq unix
                    { s2 with tcb := refreshRecvWindow s2.tcb, inbox := rest }
                    sent2 hdr payload out ?_ hq
                  intro hr
                  have hc := hinv hr
                  simp_all [refreshRecvWindow, Tcb.change_recv_window]

/-- The emit-buffered-segment prefix of a poll_read iteration does not
touch the shutdown progress or the TCB, so the iteration inherits the
shutdown safety of its body. -/
theorem pollReadStepAfterFlush_shutdownOk_eq (unix tf : Bool) (s1 : StreamState)
    (sent1 : List NetworkPacketM) (out : StepOut)
    (hinv : s1.shutdown = .Ready → s1.tcb.state = .Closed)
    (hq : pollReadStepAfterFlush unix tf s1 sent1 = out) :
    stepShutdownOk s1.shutdown out := by
  unfold pollReadStepAfterFlush at hq
  dsimp only at hq
  rcases hp : s1.packet_to_send with _ | pkt0
  all_goals rw [hp] at hq
  all_goals dsimp only at hq
  · exact pollReadCore_shutdownOk_eq unix tf s1 sent1 out hinv hq
  · exact pollReadCore_shutdownOk_eq unix tf { s1 with packet_to_send := none }
      (sent1 ++ [pkt0]) out hinv hq

/-- One full poll_read iteration, including the retransmission flush at the
loop head, keeps the shutdown progression moving forward and only stands at
Ready with the connection Closed. -/
theorem pollReadStep_shutdownOk_eq (unix tf : Bool) (s0 : StreamState) (out : StepOut)
    (hinv : s0.shutdown = .Ready → s0.tcb.state = .Closed)
    (hq : pollReadStep unix tf s0 = out) :
    stepShutdownOk s0.shutdown out := by
  unfold pollReadStep at hq
  by_cases hrt : s0.tcb.retransmission.isSome = true
  · rw [if_pos hrt] at hq
    rcases hpf : pollFlush unix { s0 with write_notify := true } with ⟨s1, p1, fr⟩
    rw [hpf] at hq
    dsimp only at hq
    obtain ⟨hsh, hst⟩ := pollFlush_eq_fields unix _ s1 p1 fr hpf
    dsimp only at hsh hst
    by_cases hpan : fr = .panicked
    · rw [if_pos hpan] at hq
      subst hq
      refine ⟨by rw [hsh], fun hr => ?_⟩
      rw [hst]
      exact hinv (by rw [← hsh]; exact hr)
    · rw [if_neg hpan] at hq
      have hinv1 : s1.shutdown = .Ready → s1.tcb.state = .Closed := by
        intro hr
        rw [hst]
        exact hinv (by rw [← hsh]; exact hr)
      have hok := pollReadStepAfterFlush_shutdownOk_eq unix tf s1 p1 out hinv1 hq
      rw [hsh] at hok
      exact hok
  · rw [if_neg hrt] at hq
    exact pollReadStepAfterFlush_shutdownOk_eq unix tf s0 [] out hinv hq

/-- Through any number of poll_read iterations, the shutdown progression
never moves backwards and stands at Ready only with the connection Closed. -/
theorem pollReadAux_shutdownOk (fuel : Nat) : ∀ (unix tf : Bool) (s : StreamState)
    (acc : List NetworkPacketM),
    (s.shutdown = .Ready → s.tcb.state = .Closed) →
    shutdownRank s.shutdown ≤ shutdownRank (pollReadAux fuel unix tf s acc).1.shutdown ∧
    ((pollReadAux fuel unix tf s acc).1.shutdown = .Ready →
      (pollReadAux fuel unix tf s acc).1.tcb.state = .Closed) := by
  induction fuel with
  | zero => exact fun unix tf s acc hinv => ⟨le_rfl, hinv⟩
  | succ n ih =>
    intro unix tf s acc hinv
    rcases hstep : pollReadStep unix tf s with ⟨s1, sent, tf1⟩ | ⟨s1, sent, r⟩
    · obtain ⟨hrk, hrc⟩ := pollReadStep_shutdownOk_eq unix tf s _ hinv hstep
      rw [pollReadAux_succ_cont n unix tf tf1 s s1 sent acc hstep]
      obtain ⟨hrk2, hrc2⟩ := ih unix tf1 s1 (acc ++ sent) hrc
      exact ⟨le_trans hrk hrk2, hrc2⟩
    · obtain ⟨hrk, hrc⟩ := pollReadStep_shutdownOk_eq unix tf s _ hinv hstep
      rw [pollReadAux_succ_halt n unix tf s s1 sent r acc hstep]
      exact ⟨hrk, hrc⟩

/-- A full poll_read call keeps the shutdown progression moving forward and
leaves it at Ready only with the connection Closed. -/
theorem pollRead_shutdownOk (unix tf : Bool) (fuel : Nat) (s : StreamState)
    (hinv : s.shutdown = .Ready → s.tcb.state = .Closed) :
    shutdownRank s.shutdown ≤ shutdownRank (pollRead unix fuel tf s).1.shutdown ∧
    ((pollRead unix fuel tf s).1.shutdown = .Ready →
      (pollRead unix fuel tf s).1.tcb.state = .Closed) := by
  unfold pollRead
  exact pollReadAux_shutdownOk fuel unix tf s [] hinv

/-- A poll_shutdown call moves an un-begun shutdown to Pending and then
drives the poll_read machine; the shutdown progression never moves
backwards and stands at Ready only with the connection Closed. -/
theorem pollShutdown_shutdownOk (unix tf : Bool) (fuel : Nat) (s : StreamState)
    (hinv : s.shutdown = .Ready → s.tcb.state = .Closed) :
    shutdownRank s.shutdown ≤ shutdownRank (pollShutdown unix fuel tf s).1.shutdown ∧
    ((pollShutdown unix fuel tf s).1.shutdown = .Ready →
      (pollShutdown unix fuel tf s).1.tcb.state = .Closed) := by
  unfold pollShutdown
  by_cases hrdy : (s.shutdown == ShutdownS.Ready) = true
  · rw [if_pos hrdy]
    exact ⟨le_rfl, hinv⟩
  · rw [if_neg hrdy]
    dsimp only
    by_cases hnone : (s.shutdown == ShutdownS.None) = true
    · rw [if_pos hnone]
      have hN : s.shutdown = ShutdownS.None := by simpa using hnone
      have key := pollRead_shutdownOk unix tf fuel { s with shutdown := .Pending }
        (by intro hr; exact absurd hr (by simp))
      refine ⟨?_, key.2⟩
      refine le_trans ?_ key.1
      rw [hN]
      simp [shutdownRank]
    · rw [if_neg hnone]
      exact pollRead_shutdownOk unix tf fuel s hinv


end Lemmas

section Claims

/-- Claim C10: whenever the TCB state is not Established, poll_write and
poll_flush each return a NotConnected error immediately, sending no packet
and leaving the stream state (TCB included) unchanged. -/
theorem c10_not_connected (unix : Bool) (s : StreamState) (buf : List Nat)
    (h : s.tcb.state ≠ .Established) :
    pollWrite unix s buf = (s, [], .errKind .NotConnected) ∧
    pollFlush unix s = (s, [], .errKind .NotConnected) := by
  constructor
  · unfold pollWrite
    rw [if_pos h]
  · unfold pollFlush
    rw [if_pos h]

/-- Witness for C10 at a Listen-state flow and a two-byte write. -/
theorem c10_witness :
    pollWrite true (estabStream 65535 [] []) [1, 2] ≠
      ((estabStream 65535 [] []), [], .errKind .NotConnected) ∧
    pollWrite true { estabStream 65535 [] [] with
        tcb := (estabTcb 65535 []).change_state .Listen } [1, 2] =
      ({ estabStream 65535 [] [] with
          tcb := (estabTcb 65535 []).change_state .Listen }, [], .errKind .NotConnected) := by
  constructor
  · decide
  · exact (c10_not_connected true { estabStream 65535 [] [] with
      tcb := (estabTcb 65535 []).change_state .Listen } [1, 2] (by decide)).1

/-- Claim C5: during poll_flush with a pending retransmission sequence
number, a matching inflight entry is resent as a PSH+ACK segment carrying
the recorded sequence number; a missing entry panics; and whenever the
retransmission sequence number is present among the inflight entries the
panic branch is not taken. -/
theorem c5_flush_retransmission (unix : Bool) (s : StreamState) (sq : Nat)
    (hst : s.tcb.state = .Established)
    (hr : s.tcb.retransmission = some sq)
    (hfam : sameFamily s.src_addr s.dst_addr = true)
    (hm : s.mtu ≤ 65535) :
    (∀ p, s.tcb.inflight_packets.find? (fun q => q.seq == sq) = some p →
      ∃ pkt, pollFlush unix s =
          ({ s with tcb := { s.tcb with retransmission := none } }, [pkt], .ok) ∧
        pkt.tcpSeq = p.seq ∧ p.seq = sq ∧ pkt.tcpFlags = flagByte (PSH ||| ACK)) ∧
    (s.tcb.inflight_packets.find? (fun q => q.seq == sq) = none →
      pollFlush unix s =
        ({ s with tcb := { s.tcb with retransmission := none } }, [], .panicked)) ∧
    ((∃ p ∈ s.tcb.inflight_packets, p.seq = sq) →
      (pollFlush unix s).2.2 ≠ .panicked) := by
  have hne : ¬(s.tcb.state ≠ TcpState.Established) := by
    simp [hst]
  refine ⟨?_, ?_, ?_⟩
  · intro p hfind
    obtain ⟨pkt, hok⟩ := create_rev_packet_isOk s.src_addr s.dst_addr s.mtu
      { s.tcb with retransmission := none } (PSH ||| ACK) (hostTTL unix)
      (some p.seq) p.payload hfam hm
    obtain ⟨-, hseq, -, hflags, -⟩ := create_rev_packet_fields _ _ _ _ _ _ _ _ _ hok
    refine ⟨pkt, ?_, ?_, ?_, hflags⟩
    · unfold pollFlush
      rw [if_neg hne, hr]
      simp only [hfind, hok]
    · simpa using hseq
    · have := List.find?_some hfind
      simpa using this
  · intro hfind
    unfold pollFlush
    rw [if_neg hne, hr]
    simp only [hfind]
  · intro ⟨p, hmem, hpseq⟩
    have hsome : (s.tcb.inflight_packets.find? (fun q => q.seq == sq)).isSome := by
      rw [List.find?_isSome]
      exact ⟨p, hmem, by simp [hpseq]⟩
    obtain ⟨q, hq⟩ := Option.isSome_iff_exists.mp hsome
    obtain ⟨pkt, hok⟩ := create_rev_packet_isOk s.src_addr s.dst_addr s.mtu
      { s.tcb with retransmission := none } (PSH ||| ACK) (hostTTL unix)
      (some q.seq) q.payload hfam hm
    unfold pollFlush
    rw [if_neg hne, hr]
    simp only [hq, hok]
    simp

/-- Witness for C5: an Established flow with one inflight segment at seq 1
and a pending retransmission of 1 resends that segment with seq 1. -/
theorem c5_witness :
    ∃ pkt, pollFlush true
        { estabStream 65535 [] [] with tcb :=
            { estabTcb 65535 [] with
                inflight_packets := [⟨1, [7, 8]⟩]
                retransmission := some 1 } } =
        ({ estabStream 65535 [] [] with tcb :=
            { estabTcb 65535 [] with inflight_packets := [⟨1, [7, 8]⟩] } },
          [pkt], .ok) ∧
      pkt.tcpSeq = 1 ∧ pkt.tcpFlags = flagByte (PSH ||| ACK) := by
  obtain ⟨p1, -, -⟩ := c5_flush_retransmission true
    { estabStream 65535 [] [] with tcb :=
        { estabTcb 65535 [] with
            inflight_packets := [⟨1, [7, 8]⟩]
            retransmission := some 1 } } 1 rfl rfl rfl (by decide)
  obtain ⟨pkt, heq, hseq, -, hfl⟩ := p1 ⟨1, [7, 8]⟩ (by decide)
  exact ⟨pkt, heq, hseq, hfl⟩

/-- Claim C3: an Established poll_write with no pending retransmission and
adequate window emits one PSH+ACK whose payload is the input truncated to
min(send_window, MTU - ip_header_len - tcp_header_len), records (current
seq, payload) in the inflight buffer, and returns the truncated length;
and whenever the window has shrunk below half its moving average or the
send buffer is full, it registers the write waker and returns Pending
without sending. -/
theorem c3_poll_write (unix : Bool) (s : StreamState) (buf : List Nat)
    (hst : s.tcb.state = .Established)
    (hr : s.tcb.retransmission = none)
    (hfam : sameFamily s.src_addr s.dst_addr = true)
    (hm : s.mtu ≤ 65535) :
    (¬ s.tcb.send_window < s.tcb.avg_send_window / 2 →
      s.tcb.is_send_buffer_full = false →
      ∃ pkt, pollWrite unix s buf =
          ({ s with tcb := s.tcb.add_inflight_packet s.tcb.seq pkt.payload },
            [pkt], .ready pkt.payload.length) ∧
        pkt.payload = buf.take
          (min s.tcb.send_window (s.mtu - ipHdrLen s.dst_addr - 20)) ∧
        pkt.tcpSeq = s.tcb.seq ∧
        pkt.tcpFlags = flagByte (PSH ||| ACK) ∧
        ({ s with tcb := s.tcb.add_inflight_packet s.tcb.seq pkt.payload
          }).tcb.inflight_packets
          = s.tcb.inflight_packets ++ [⟨s.tcb.seq, pkt.payload⟩]) ∧
    ((s.tcb.send_window < s.tcb.avg_send_window / 2 ∨ s.tcb.is_send_buffer_full = true) →
      pollWrite unix s buf = ({ s with write_notify := true }, [], .pending)) := by
  have hne : ¬(s.tcb.state ≠ TcpState.Established) := by
    simp [hst]
  constructor
  · intro hwin hfull
    obtain ⟨pkt, hok⟩ := create_rev_packet_isOk s.src_addr s.dst_addr s.mtu
      s.tcb (PSH ||| ACK) (hostTTL unix) none buf hfam hm
    obtain ⟨-, hseq, -, hflags, hpay⟩ := create_rev_packet_fields _ _ _ _ _ _ _ _ _ hok
    refine ⟨pkt, ?_, ?_, by simpa using hseq, hflags, by simp [Tcb.add_inflight_packet]⟩
    · unfold pollWrite
      rw [if_neg hne]
      have hcond : (decide (s.tcb.send_window < s.tcb.avg_send_window / 2)
          || s.tcb.is_send_buffer_full) = false := by
        simp [hwin, hfull]
      simp only [hcond, Bool.false_eq_true, if_false, hr, Option.isSome_none, hok]
      simp
    · rw [hpay]
      unfold calculate_payload_max_len
      rw [Nat.sub_sub]
  · intro hpark
    unfold pollWrite
    rw [if_neg hne]
    rcases hpark with hp1 | hp2
    · simp [hp1]
    · simp [hp2]

/-- Witness for C3: a three-byte write on the concrete Established flow is
accepted whole, and a flow whose send window collapsed to 10 against a
moving average of 65535 parks. -/
theorem c3_witness :
    (∃ pkt, pollWrite true (estabStream 65535 [] []) [5, 6, 7] =
        ({ estabStream 65535 [] [] with tcb :=
            (estabTcb 65535 []).add_inflight_packet 3 pkt.payload },
          [pkt], .ready pkt.payload.length) ∧
      pkt.payload = [5, 6, 7] ∧ pkt.tcpSeq = 3) ∧
    pollWrite true { estabStream 65535 [] [] with tcb :=
        { estabTcb 65535 [] with send_window := 10 } } [5, 6, 7] =
      ({ estabStream 65535 [] [] with
          tcb := { estabTcb 65535 [] with send_window := 10 }
          write_notify := true }, [], .pending) := by
  constructor
  · obtain ⟨p1, -⟩ := c3_poll_write true (estabStream 65535 [] []) [5, 6, 7]
      rfl rfl rfl (by decide)
    obtain ⟨pkt, heq, hpay, hseq, -, -⟩ := p1 (by decide) (by decide)
    have hpay3 : pkt.payload = [5, 6, 7] := by
      rw [hpay]
      decide
    exact ⟨pkt, heq, hpay3, hseq⟩
  · exact (c3_poll_write true { estabStream 65535 [] [] with tcb :=
        { estabTcb 65535 [] with send_window := 10 } } [5, 6, 7]
      rfl rfl rfl (by decide)).2 (by decide)

/-- Claim C9: with both addresses IPv4 or both IPv6 (and the u16 MTU bound
the configuration guarantees), create_rev_packet takes a defined branch and
produces a packet whose TCP checksum is computed over the pseudo-header of
that same family; with addresses of different families it reaches the
unreachable (panicking) arm. -/
theorem c9_create_rev_packet_branches (src dst : SockAddr) (mtu : Nat) (tcb : Tcb)
    (flags ttl : Nat) (seqArg : Option Nat) (payload : List Nat)
    (hm : mtu ≤ 65535) :
    (∀ s0 s1 s2 s3 d0 d1 d2 d3,
      src.ip = .v4 s0 s1 s2 s3 → dst.ip = .v4 d0 d1 d2 d3 →
      ∃ hdr pl, create_rev_packet src dst mtu tcb flags ttl seqArg payload =
          .ok { ip := .ipv4 { ttl := ttl
                              source := [d0, d1, d2, d3]
                              destination := [s0, s1, s2, s3]
                              payload_len := pl.length + 20
                              dont_fragment := true }
                transport := .tcp hdr
                payload := pl } ∧
        hdr.checksum = tcpChecksumV4 [d0, d1, d2, d3] [s0, s1, s2, s3]
          { hdr with checksum := 0 } pl) ∧
    (∀ sOct dOct, src.ip = .v6 sOct → dst.ip = .v6 dOct →
      ∃ hdr pl, create_rev_packet src dst mtu tcb flags ttl seqArg payload =
          .ok { ip := .ipv6 { hop_limit := ttl
                              source := dOct
                              destination := sOct
                              payload_length := pl.length + 20 }
                transport := .tcp hdr
                payload := pl } ∧
        hdr.checksum = tcpChecksumV6 dOct sOct { hdr with checksum := 0 } pl) ∧
    (sameFamily src dst = false →
      create_rev_packet src dst mtu tcb flags ttl seqArg payload =
        .unreachableBranch) := by
  refine ⟨?_, ?_, ?_⟩
  · intro s0 s1 s2 s3 d0 d1 d2 d3 hsrc hdst
    have hif : ¬(65515 < (payload.take
        (calculate_payload_max_len tcb.send_window mtu 20 20)).length + 20) := by
      have := take_plen_le payload tcb.send_window mtu 20 20
      omega
    unfold create_rev_packet
    rw [hsrc, hdst]
    exact ⟨_, _, by simp only [if_neg hif]; rfl, rfl⟩
  · intro sOct dOct hsrc hdst
    have hif : ¬(65535 < (payload.take
        (calculate_payload_max_len tcb.send_window mtu 40 20)).length + 20) := by
      have := take_plen_le payload tcb.send_window mtu 40 20
      omega
    unfold create_rev_packet
    rw [hsrc, hdst]
    exact ⟨_, _, by simp only [if_neg hif]; rfl, rfl⟩
  · intro hfam
    rcases hsrc : src.ip with ⟨s0, s1, s2, s3⟩ | sOct <;>
      rcases hdst : dst.ip with ⟨d0, d1, d2, d3⟩ | dOct <;>
      rw [sameFamily, hsrc, hdst] at hfam <;>
      unfold create_rev_packet <;>
      rw [hsrc, hdst] <;>
      first
      | rfl
      | exact absurd hfam (by simp)

/-- Witness for C9: the concrete v4/v4 scenario takes the IPv4 branch, and
a v4/v6 pair reaches the unreachable arm. -/
theorem c9_witness :
    (∃ hdr pl, create_rev_packet addrV4a addrV4b 1500 (estabTcb 65535 [])
        ACK 64 none [] =
        .ok { ip := .ipv4 { ttl := 64
                            source := [10, 0, 0, 2]
                            destination := [10, 0, 0, 1]
                            payload_len := pl.length + 20
                            dont_fragment := true }
              transport := .tcp hdr
              payload := pl } ∧
      hdr.checksum = tcpChecksumV4 [10, 0, 0, 2] [10, 0, 0, 1]
        { hdr with checksum := 0 } pl) ∧
    create_rev_packet addrV4a ⟨.v6 [0, 0, 0, 0, 0, 0, 0, 0, 0, 0, 0, 0, 0, 0, 0, 1], 80⟩
      1500 (estabTcb 65535 []) ACK 64 none [] = .unreachableBranch := by
  constructor
  · exact (c9_create_rev_packet_branches addrV4a addrV4b 1500 (estabTcb 65535 [])
      ACK 64 none [] (by decide)).1 10 0 0 1 10 0 0 2 rfl rfl
  · exact (c9_create_rev_packet_branches addrV4a
      ⟨.v6 [0, 0, 0, 0, 0, 0, 0, 0, 0, 0, 0, 0, 0, 0, 0, 1], 80⟩ 1500
      (estabTcb 65535 []) ACK 64 none [] (by decide)).2.2 (by decide)

/-- Counterexample to C2: a first segment with SYN and RST clear and
acknowledgment number 77 provokes a RST+ACK whose sequence number is 0
(the TCB's initial seq), not the incoming acknowledgment number. -/
theorem c2_counterexample :
    ((tcpStreamNew true addrV4a addrV4b
        { sequence_number := 500
          acknowledgment_number := 77
          window_size := 1024
          syn := false
          ack := true
          rst := false
          fin := false
          psh := false } 1500).sentPackets.map (fun p => p.tcpSeq)) = [0] ∧
    ((tcpStreamNew true addrV4a addrV4b
        { sequence_number := 500
          acknowledgment_number := 77
          window_size := 1024
          syn := false
          ack := true
          rst := false
          fin := false
          psh := false } 1500).sentPackets.map (fun p => p.tcpFlags)) = [RST ||| ACK] ∧
    (0 : Nat) ≠ 77 := by
  refine ⟨?_, ?_, ?_⟩ <;> decide

/-- Claim C2 as amended: when construction receives a first segment with
SYN clear and RST clear (same-family addresses, u16 MTU), the RST+ACK it
emits carries the TCB's initial sequence number 0 — not the incoming
segment's acknowledgment number — together with ack one past the incoming
sequence number and the host TTL. -/
theorem c2_amended_rstack_seq_zero (unix : Bool) (src dst : SockAddr)
    (h : TcpHeaderIn) (mtu : Nat)
    (hsyn : h.syn = false) (hrst : h.rst = false)
    (hfam : sameFamily src dst = true) (hm : mtu ≤ 65535) :
    ∃ pkt, tcpStreamNew unix src dst h mtu = .connectionRefused [pkt] ∧
      pkt.tcpSeq = 0 ∧ pkt.tcpFlags = flagByte (RST ||| ACK) ∧
      pkt.tcpAck = seqAdd (wrap32 h.sequence_number) 1 ∧
      pkt.ttl = hostTTL unix :=
  tcpStreamNew_refused unix src dst h mtu hsyn hrst hfam hm

/-- Witness for the amended C2 at the concrete non-SYN non-RST first
segment with acknowledgment number 77. -/
theorem c2_witness :
    ∃ pkt, tcpStreamNew true addrV4a addrV4b
        { sequence_number := 500
          acknowledgment_number := 77
          window_size := 1024
          syn := false
          ack := true
          rst := false
          fin := false
          psh := false } 1500 = .connectionRefused [pkt] ∧
      pkt.tcpSeq = 0 ∧ pkt.tcpFlags = flagByte (RST ||| ACK) ∧
      pkt.tcpAck = seqAdd (wrap32 500) 1 ∧
      pkt.ttl = hostTTL true :=
  c2_amended_rstack_seq_zero true addrV4a addrV4b
    { sequence_number := 500
      acknowledgment_number := 77
      window_size := 1024
      syn := false
      ack := true
      rst := false
      fin := false
      psh := false } 1500 rfl rfl rfl (by decide)

/-- Claim C4: on a first TCP segment of a new flow, a set SYN flag yields a
stream in Listen with ack one past the first sequence number and registers
the flow; a clear SYN with RST set fails construction silently (no packet,
no registration); a clear SYN and clear RST emits a RST+ACK, fails with
connection-refused, and registers nothing. -/
theorem c4_first_segment_outcomes (pl : Platform) (table : List NetworkTuple)
    (src dst : SockAddr) (h : TcpHeaderIn) (mtu : Nat) (hm : mtu ≤ 65535) :
    (h.syn = true →
      (∃ st, tcpStreamNew pl.isUnix src dst h mtu = .ok st ∧
        st.tcb.state = .Listen ∧
        st.tcb.ack = seqAdd (wrap32 h.sequence_number) 1) ∧
      demuxHandleTcpMiss pl table src dst h mtu =
        (table ++ [⟨src, dst, true⟩], true, [])) ∧
    (h.syn = false → h.rst = true →
      tcpStreamNew pl.isUnix src dst h mtu = .connectionRefused [] ∧
      demuxHandleTcpMiss pl table src dst h mtu = (table, false, [])) ∧
    (h.syn = false → h.rst = false → sameFamily src dst = true →
      ∃ pkt, tcpStreamNew pl.isUnix src dst h mtu = .connectionRefused [pkt] ∧
        pkt.tcpFlags = flagByte (RST ||| ACK) ∧
        demuxHandleTcpMiss pl table src dst h mtu = (table, false, [pkt])) := by
  refine ⟨?_, ?_, ?_⟩
  · intro hsyn
    have hok : tcpStreamNew pl.isUnix src dst h mtu = .ok
        { src_addr := src
          dst_addr := dst
          mtu := mtu
          tcb := Tcb.new (seqAdd (wrap32 h.sequence_number) 1)
          packet_to_send := none
          shutdown := .None
          write_notify := false
          inbox := [] } := by
      unfold tcpStreamNew
      simp only [hsyn, if_true]
    refine ⟨⟨_, hok, rfl, rfl⟩, ?_⟩
    unfold demuxHandleTcpMiss
    rw [hok]
  · intro hsyn hrst
    have href : tcpStreamNew pl.isUnix src dst h mtu = .connectionRefused [] := by
      unfold tcpStreamNew
      simp only [hsyn, hrst, Bool.false_eq_true, if_false, Bool.not_true]
    refine ⟨href, ?_⟩
    unfold demuxHandleTcpMiss
    rw [href]
  · intro hsyn hrst hfam
    obtain ⟨pkt, hok, -, hflags, -, -⟩ :=
      tcpStreamNew_refused pl.isUnix src dst h mtu hsyn hrst hfam hm
    refine ⟨pkt, hok, hflags, ?_⟩
    unfold demuxHandleTcpMiss
    rw [hok]

/-- Witness for C4: the SYN case registers the concrete flow; the pure-RST
case and the refused case at concrete headers leave the table empty. -/
theorem c4_witness :
    demuxHandleTcpMiss .linux [] addrV4a addrV4b (dataHdr 500 false) 1500 =
      ([], false,
        (tcpStreamNew Platform.linux.isUnix addrV4a addrV4b
          (dataHdr 500 false) 1500).sentPackets) ∧
    demuxHandleTcpMiss .linux [] addrV4a addrV4b
      { dataHdr 500 false with syn := true } 1500 =
      ([⟨addrV4a, addrV4b, true⟩], true, []) ∧
    demuxHandleTcpMiss .linux [] addrV4a addrV4b
      { dataHdr 500 false with rst := true } 1500 = ([], false, []) := by
  have h3 := (c4_first_segment_outcomes .linux [] addrV4a addrV4b
    (dataHdr 500 false) 1500 (by decide)).2.2 rfl rfl rfl
  obtain ⟨pkt, hok, -, htab⟩ := h3
  refine ⟨?_, ?_, ?_⟩
  · rw [htab, hok]
    rfl
  · exact ((c4_first_segment_outcomes .linux [] addrV4a addrV4b
      { dataHdr 500 false with syn := true } 1500 (by decide)).1 rfl).2
  · exact ((c4_first_segment_outcomes .linux [] addrV4a addrV4b
      { dataHdr 500 false with rst := true } 1500 (by decide)).2.1 rfl rfl).2

/-- Claim C7: an outbox packet whose transport is TCP or UDP and whose IP
TTL is zero removes its reverse 5-tuple from the flow table and writes
nothing; any other packet is serialized and, when packet-information is
enabled on a Unix platform, prefixed with the two flag bytes 0x00 0x00 and
the family's protocol identifier bytes before being written. -/
theorem c7_demux_outbox (pl : Platform) (pinfo : Bool)
    (serialize : NetworkPacketM → Option (List Nat))
    (table : List NetworkTuple) (pkt : NetworkPacketM) :
    (pkt.transportIsTcpOrUdp = true → pkt.ttl = 0 →
      demuxOutbox pl pinfo serialize table pkt =
        (table.erase pkt.reverseNetworkTuple, none)) ∧
    (pkt.ttl ≠ 0 → ∀ bs, serialize pkt = some bs →
      demuxOutbox pl pinfo serialize table pkt =
        (table, some (if pl.isUnix && pinfo then
          (TUN_FLAGS ++ tunProtoBytes pl pkt.isV4) ++ bs else bs))) := by
  constructor
  · intro htr httl
    unfold demuxOutbox
    simp [htr, httl]
  · intro httl bs hser
    unfold demuxOutbox
    rw [if_neg (by simp [httl])]
    simp only [hser]
    by_cases hui : (pl.isUnix && pinfo) = true
    · rw [if_pos hui, if_pos hui]
    · rw [if_neg hui, if_neg hui]

/-- Witness for C7: a TTL-zero TCP sentinel evicts the reverse tuple of the
concrete flow without writing, and a live packet with packet-information on
Linux is written with the 0x0800 IPv4 framing prefix. -/
theorem c7_witness :
    demuxOutbox .linux true (fun _ => some [9, 9])
      [⟨addrV4a, addrV4b, true⟩] (outboxPkt 0) = ([], none) ∧
    demuxOutbox .linux true (fun _ => some [9, 9])
      [] (outboxPkt 64) = ([], some [0, 0, 8, 0, 9, 9]) := by
  constructor
  · have h := (c7_demux_outbox .linux true (fun _ => some [9, 9])
      [⟨addrV4a, addrV4b, true⟩] (outboxPkt 0)).1 rfl rfl
    rw [h]
    decide
  · have h := (c7_demux_outbox .linux true (fun _ => some [9, 9]) []
      (outboxPkt 64)).2 (by decide) [9, 9] rfl
    rw [h]
    decide

/-- Claim C6: when the idle-timeout deadline has fired at a poll of a flow
whose loop reaches the timer check (no pending retransmission or buffered
segment, state not already Closed or FinWait2(false)), the task emits a
RST+ACK with the host TTL (64 on Unix, 128 on Windows), moves the TCB to
Closed, marks shutdown ready, and returns TimedOut to the consumer. -/
theorem c6_timeout_rstack (unix : Bool) (fuel : Nat) (s : StreamState)
    (hr : s.tcb.retransmission = none)
    (hp : s.packet_to_send = none)
    (hc : s.tcb.state ≠ .Closed)
    (hf : s.tcb.state ≠ .FinWait2 false)
    (hfam : sameFamily s.src_addr s.dst_addr = true)
    (hm : s.mtu ≤ 65535) :
    ∃ pkt, pollRead unix (fuel + 1) true s =
        (shutdownReady { s with tcb := (refreshRecvWindow s.tcb).change_state .Closed },
          [pkt], .errKind .TimedOut) ∧
      pkt.tcpFlags = flagByte (RST ||| ACK) ∧
      pkt.ttl = hostTTL unix ∧
      (shutdownReady { s with
        tcb := (refreshRecvWindow s.tcb).change_state .Closed }).tcb.state = .Closed ∧
      (shutdownReady { s with
        tcb := (refreshRecvWindow s.tcb).change_state .Closed }).shutdown = .Ready := by
  obtain ⟨pkt, hok⟩ := create_rev_packet_isOk s.src_addr s.dst_addr s.mtu
    (refreshRecvWindow s.tcb) (RST ||| ACK) (hostTTL unix) none [] hfam hm
  obtain ⟨httl, -, -, hflags, -⟩ := create_rev_packet_fields _ _ _ _ _ _ _ _ _ hok
  have hstep := pollReadStep_timeout unix s pkt hr hp hc hf hok
  refine ⟨pkt, ?_, hflags, httl, rfl, rfl⟩
  unfold pollRead
  simp only [pollReadAux, hstep, List.nil_append]

/-- Witness for C6 at the concrete Established flow with a fired deadline. -/
theorem c6_witness :
    ∃ pkt, pollRead true 1 true (estabStream 65535 [] []) =
        (shutdownReady { estabStream 65535 [] [] with
            tcb := (refreshRecvWindow (estabTcb 65535 [])).change_state .Closed },
          [pkt], .errKind .TimedOut) ∧
      pkt.tcpFlags = flagByte (RST ||| ACK) ∧
      pkt.ttl = hostTTL true ∧
      (shutdownReady { estabStream 65535 [] [] with
        tcb := (refreshRecvWindow (estabTcb 65535 [])).change_state .Closed
        }).tcb.state = .Closed ∧
      (shutdownReady { estabStream 65535 [] [] with
        tcb := (refreshRecvWindow (estabTcb 65535 [])).change_state .Closed
        }).shutdown = .Ready := by
  obtain ⟨pkt, h1, h2, h3, h4, h5⟩ := c6_timeout_rstack true 0
    (estabStream 65535 [] []) rfl rfl (by decide) (by decide) rfl (by decide)
  exact ⟨pkt, h1, h2, h3, h4, h5⟩

/-- Counterexample to C1: with PSH+ACK flags, the out-of-order segment
[1005, 1010) arriving before [1000, 1005) is dropped, not buffered (the
reorder buffer stays empty after it is processed); when the earlier
segment then arrives, only its own five bytes are delivered and the
emitted cumulative ACK acknowledges 1005, not 1010. -/
theorem c1_counterexample :
    (pollRead true 1 false (estabStream 65535 []
        [(dataHdr 1005 true, [201, 202, 203, 204, 205]),
         (dataHdr 1000 true, [101, 102, 103, 104, 105])])).1.tcb.unordered_packets
      = [] ∧
    (pollRead true 5 false (estabStream 65535 []
        [(dataHdr 1005 true, [201, 202, 203, 204, 205]),
         (dataHdr 1000 true, [101, 102, 103, 104, 105])])).2.2 =
      .okBytes [101, 102, 103, 104, 105] ∧
    ((pollRead true 5 false (estabStream 65535 []
        [(dataHdr 1005 true, [201, 202, 203, 204, 205]),
         (dataHdr 1000 true, [101, 102, 103, 104, 105])])).2.1.map
      (fun p => (p.tcpFlags, p.tcpAck))) = [(ACK, 1005)] ∧
    (1005 : Nat) ≠ 1010 := by
  refine ⟨?_, ?_, ?_, ?_⟩ <;> decide

set_option maxRecDepth 2048 in
/-- Claim C1 as amended: for an Established flow receiving the data
segments with bare-ACK flags, the out-of-order segment covering
[1005, 1010) arriving before [1000, 1005) is buffered in the reorder
buffer; when the earlier segment arrives both payloads are delivered to
the consumer in order and a single cumulative ACK acknowledging 1010 is
emitted. (With PSH+ACK flags the source instead drops the out-of-order
segment; see the counterexample.) -/
theorem c1_amended_out_of_order (f g h i j u v w x y : Nat) :
    (pollRead true 1 false (estabStream 65535 []
        [(dataHdr 1005 false, [u, v, w, x, y]),
         (dataHdr 1000 false, [f, g, h, i, j])])).1.tcb.unordered_packets =
      [(1005, [u, v, w, x, y])] ∧
    ∃ pkt, pollRead true 3 false (estabStream 65535 []
        [(dataHdr 1005 false, [u, v, w, x, y]),
         (dataHdr 1000 false, [f, g, h, i, j])]) =
        ({ estabStream 65525 [] [] with
            tcb := { estabTcb 65525 [] with ack := 1010 } },
          [pkt], .okBytes [f, g, h, i, j, u, v, w, x, y]) ∧
      pkt.tcpFlags = flagByte ACK ∧ pkt.tcpAck = 1010 := by
  have h1 : pollReadStep true false (estabStream 65535 []
      [(dataHdr 1005 false, [u, v, w, x, y]),
       (dataHdr 1000 false, [f, g, h, i, j])]) =
      .cont (estabStream 65535 [(1005, [u, v, w, x, y])]
        [(dataHdr 1000 false, [f, g, h, i, j])]) [] false :=
    pollReadStep_estab_data 65535 65535 1005 [] [(1005, [u, v, w, x, y])]
      [u, v, w, x, y] [(dataHdr 1000 false, [f, g, h, i, j])] rfl rfl rfl rfl
  have h2 : pollReadStep true false (estabStream 65535 [(1005, [u, v, w, x, y])]
      [(dataHdr 1000 false, [f, g, h, i, j])]) =
      .cont (estabStream 65530 [(1005, [u, v, w, x, y]), (1000, [f, g, h, i, j])]
        []) [] false :=
    pollReadStep_estab_data 65535 65530 1000 [(1005, [u, v, w, x, y])]
      [(1005, [u, v, w, x, y]), (1000, [f, g, h, i, j])]
      [f, g, h, i, j] [] rfl rfl
      (by
        unfold estabTcb dataHdr Tcb.check_pkt_type wrap32 seqSub seqLt seqLe seqAdd
        norm_num
        intro hcon
        exact absurd hcon (by norm_num [seqLt]))
      (by
        rw [show wrap32 1000 = 1000 from rfl]
        simp [upsertAssoc])
  have g1 : refreshRecvWindow (estabStream 65530
      [(1005, [u, v, w, x, y]), (1000, [f, g, h, i, j])] []).tcb =
      estabTcb 65525 [(1005, [u, v, w, x, y]), (1000, [f, g, h, i, j])] := rfl
  have g2 : ({ estabTcb 65525 [(1005, [u, v, w, x, y]), (1000, [f, g, h, i, j])] with
      unordered_packets := ([] : List (Nat × List Nat)) }) = estabTcb 65525 [] := rfl
  have g3 : (estabTcb 65525 []).add_ack
      ([f, g, h, i, j, u, v, w, x, y] : List Nat).length =
      { estabTcb 65525 [] with ack := 1010 } := by
    unfold estabTcb Tcb.add_ack seqAdd
    norm_num
  obtain ⟨pkt, hok⟩ := create_rev_packet_isOk addrV4a addrV4b 1500
    (({ refreshRecvWindow (estabStream 65530
          [(1005, [u, v, w, x, y]), (1000, [f, g, h, i, j])] []).tcb with
        unordered_packets := [] }).add_ack
      ([f, g, h, i, j, u, v, w, x, y] : List Nat).length)
    ACK (hostTTL true) none [] rfl (by decide)
  obtain ⟨-, -, hackf, hflagf, -⟩ := create_rev_packet_fields _ _ _ _ _ _ _ _ _ hok
  have hack10 : pkt.tcpAck = 1010 := by
    rw [hackf, g1, g2, g3]
  have h3 : pollReadStep true false (estabStream 65530
      [(1005, [u, v, w, x, y]), (1000, [f, g, h, i, j])] []) =
      .halt ({ estabStream 65525 [] [] with
          tcb := { estabTcb 65525 [] with ack := 1010 } })
        [pkt] (.okBytes [f, g, h, i, j, u, v, w, x, y]) := by
    refine pollReadStep_deliver2 true (estabStream 65530
        [(1005, [u, v, w, x, y]), (1000, [f, g, h, i, j])] [])
      [f, g, h, i, j, u, v, w, x, y] [] pkt
      ({ estabStream 65525 [] [] with
          tcb := { estabTcb 65525 [] with ack := 1010 } })
      rfl rfl (by simp [estabStream, estabTcb]) (by simp [estabStream, estabTcb])
      (by simp [estabStream, estabTcb]) rfl rfl hok ?_
    rw [g1, g2, g3]
    simp [estabStream, estabTcb]
  refine ⟨?_, pkt, ?_, hflagf, hack10⟩
  · unfold pollRead
    rw [pollReadAux_succ_cont 0 true false false _ _ _ _ h1]
    rfl
  · unfold pollRead
    rw [pollReadAux_succ_cont 2 true false false _ _ _ _ h1]
    rw [pollReadAux_succ_cont 1 true false false _ _ _ _ h2]
    rw [pollReadAux_succ_halt 0 true false _ _ _ _ _ h3]
    simp only [List.nil_append]

/-- Claim C8: the shutdown progression of a flow only moves forward along
None, Pending, Ready, never backwards, through both the poll_read loop and
poll_shutdown; starting from any state where Ready already entails a Closed
TCB (as at construction, where shutdown is None), the resulting shutdown is
Ready only once the poll loop has moved the TCB to Closed, which happens
exactly in the handlers that observe Closed or FinWait2(false) (and the
RST and idle-timeout handlers, which themselves close the connection); in
particular shutdown is never Ready while the TCB state is Listen,
SynReceived, Established, FinWait1, or FinWait2(true). -/
theorem c8_shutdown_machine (unix tf : Bool) (fuel : Nat) (s : StreamState)
    (hinv : s.shutdown = .Ready → s.tcb.state = .Closed) :
    (shutdownRank s.shutdown ≤ shutdownRank (pollRead unix fuel tf s).1.shutdown ∧
      ((pollRead unix fuel tf s).1.shutdown = .Ready →
        (pollRead unix fuel tf s).1.tcb.state = .Closed)) ∧
    (shutdownRank s.shutdown ≤ shutdownRank (pollShutdown unix fuel tf s).1.shutdown ∧
      ((pollShutdown unix fuel tf s).1.shutdown = .Ready →
        (pollShutdown unix fuel tf s).1.tcb.state = .Closed)) ∧
    ((pollRead unix fuel tf s).1.shutdown = .Ready →
      (pollRead unix fuel tf s).1.tcb.state ≠ .Listen ∧
      (pollRead unix fuel tf s).1.tcb.state ≠ .SynReceived ∧
      (pollRead unix fuel tf s).1.tcb.state ≠ .Established ∧
      (pollRead unix fuel tf s).1.tcb.state ≠ .FinWait1 true ∧
      (pollRead unix fuel tf s).1.tcb.state ≠ .FinWait1 false ∧
      (pollRead unix fuel tf s).1.tcb.state ≠ .FinWait2 true) := by
  obtain ⟨h1, h2⟩ := pollRead_shutdownOk unix tf fuel s hinv
  refine ⟨⟨h1, h2⟩, pollShutdown_shutdownOk unix tf fuel s hinv, fun hr => ?_⟩
  have hc := h2 hr
  rw [hc]
  refine ⟨by decide, by decide, by decide, by decide, by decide, by decide⟩

/-- Witness for claim C8: the Established fixture flow with an un-begun
shutdown satisfies the hypothesis, and the conclusion holds for it at fuel
zero. -/
theorem c8_witness :
    ((estabStream 65535 [] []).shutdown = .Ready →
      (estabStream 65535 [] []).tcb.state = .Closed) ∧
    ((shutdownRank (estabStream 65535 [] []).shutdown ≤
        shutdownRank (pollRead true 0 false (estabStream 65535 [] [])).1.shutdown ∧
      ((pollRead true 0 false (estabStream 65535 [] [])).1.shutdown = .Ready →
        (pollRead true 0 false (estabStream 65535 [] [])).1.tcb.state = .Closed)) ∧
    (shutdownRank (estabStream 65535 [] []).shutdown ≤
        shutdownRank (pollShutdown true 0 false (estabStream 65535 [] [])).1.shutdown ∧
      ((pollShutdown true 0 false (estabStream 65535 [] [])).1.shutdown = .Ready →
        (pollShutdown true 0 false (estabStream 65535 [] [])).1.tcb.state = .Closed)) ∧
    ((pollRead true 0 false (estabStream 65535 [] [])).1.shutdown = .Ready →
      (pollRead true 0 false (estabStream 65535 [] [])).1.tcb.state ≠ .Listen ∧
      (pollRead true 0 false (estabStream 65535 [] [])).1.tcb.state ≠ .SynReceived ∧
      (pollRead true 0 false (estabStream 65535 [] [])).1.tcb.state ≠ .Established ∧
      (pollRead true 0 false (estabStream 65535 [] [])).1.tcb.state ≠ .FinWait1 true ∧
      (pollRead true 0 false (estabStream 65535 [] [])).1.tcb.state ≠ .FinWait1 false ∧
      (pollRead true 0 false (estabStream 65535 [] [])).1.tcb.state ≠ .FinWait2 true)) :=
  ⟨by decide, c8_shutdown_machine true false 0 (estabStream 65535 [] []) (by decide)⟩


end Claims

end IpStack
